import Mathlib

/-!
Shallow embedding of the SmartLearn-AI shared type registry
(`src/shared/types/python_types.py`), a collection of pydantic `BaseModel`
record schemas with field-level constraints, together with proofs about the
validation and serialization behaviour those schemas declare.

Modelling conventions:
* Wire input is a JSON-like `Value` tree (pydantic receives a mapping of
  field name to value); Python dicts are association lists preserving
  insertion order.
* Python `float` is modelled as `ℚ`; the concrete decimals appearing in the
  development (0.85, 0.7, 1.0001, -0.0001, ...) are exactly representable
  and the order comparisons `ge`/`le` behave identically.
* Python `int` fields accept a number whose denominator is 1 (pydantic v2
  accepts an integral float and rejects a fractional one, and rejects
  booleans for integer fields).
* Validation follows pydantic v2 semantics: every field is checked and all
  violations are collected into one structured error list (with dotted
  paths for nested records), never fail-fast, never silently clamped or
  defaulted on a constraint violation.
* `datetime` is a record of calendar components; it parses from and
  serializes to an ISO-8601 `YYYY-MM-DDTHH:MM:SSZ` string.
-/

namespace SmartLearn

/-- A JSON-like wire value, the input to every record validator. -/
inductive Value where
  | null : Value
  | bool : Bool → Value
  | num : ℚ → Value
  | str : String → Value
  | arr : List Value → Value
  | obj : List (String × Value) → Value
deriving Repr

/-- Structured validation failure, mirroring the `ValidationError` record of
the source (`field`, `message`, optional received `value`). -/
structure ValidationError where
  field : String
  message : String
  value : Option Value
deriving Repr

/-- Result of validating a value against a schema: either the typed instance
or the list of every offending field. -/
abbrev VResult (α : Type) := Except (List ValidationError) α

/-- Look up a field in the input mapping (first occurrence wins). -/
def lookupField : List (String × Value) → String → Option Value
  | [], _ => none
  | (k, v) :: rest, name => if k = name then some v else lookupField rest name

/-- Error-collecting applicative composition: both sides are validated and
their error lists concatenated, reproducing pydantic's collect-all-errors
behaviour. -/
def apV {α β : Type} (f : VResult (α → β)) (x : VResult α) : VResult β :=
  match f, x with
  | .ok f, .ok a => .ok (f a)
  | .error e, .ok _ => .error e
  | .ok _, .error e => .error e
  | .error e₁, .error e₂ => .error (e₁ ++ e₂)

/-- Did validation succeed? -/
def isOk {α : Type} : VResult α → Bool
  | .ok _ => true
  | .error _ => false

/-- Extend a dotted error path by one component. -/
def extendPath (base sub : String) : String :=
  if sub = "" then base else base ++ "." ++ sub

/-- Re-root the error paths of a nested validation under a field name. -/
def reroot {α : Type} (name : String) : VResult α → VResult α
  | .ok a => .ok a
  | .error es => .error (es.map fun e => { e with field := extendPath name e.field })

/-- Turn a primitive (single-value) check into a validator. -/
def prim {α : Type} (p : Value → Except String α) (v : Value) : VResult α :=
  match p v with
  | .ok a => .ok a
  | .error msg => .error [⟨"", msg, some v⟩]

/-- A required field: absent input is itself a violation. -/
def fieldV {α : Type} (fs : List (String × Value)) (name : String)
    (validate : Value → VResult α) : VResult α :=
  match lookupField fs name with
  | none => .error [⟨name, "Field required", none⟩]
  | some v => reroot name (validate v)

/-- A field with a declared default: absent input yields the default. -/
def fieldD {α : Type} (fs : List (String × Value)) (name : String)
    (d : α) (validate : Value → VResult α) : VResult α :=
  match lookupField fs name with
  | none => .ok d
  | some v => reroot name (validate v)

/-- `Optional[α]` wrapper: JSON null is accepted as `none`. -/
def optV {α : Type} (validate : Value → VResult α) : Value → VResult (Option α)
  | .null => .ok none
  | v => apV (.ok some) (validate v)

/-- Validate every element of a list, collecting the errors of all elements
(paths indexed by position). -/
def elemsV {α : Type} (validate : Value → VResult α) : ℕ → List Value → VResult (List α)
  | _, [] => .ok []
  | i, v :: rest =>
    apV (apV (.ok List.cons) (reroot (toString i) (validate v)))
      (elemsV validate (i + 1) rest)

/-- `List[α]` validator. -/
def listV {α : Type} (validate : Value → VResult α) (v : Value) : VResult (List α) :=
  match v with
  | .arr xs => elemsV validate 0 xs
  | _ => .error [⟨"", "Input should be a valid list", some v⟩]

/-- Validate every value of a string-keyed mapping, collecting all errors. -/
def dictElemsV {α : Type} (validate : Value → VResult α) :
    List (String × Value) → VResult (List (String × α))
  | [] => .ok []
  | (k, v) :: rest =>
    apV (apV (.ok fun a r => (k, a) :: r) (reroot k (validate v)))
      (dictElemsV validate rest)

/-- `Dict[str, α]` validator. -/
def dictV {α : Type} (validate : Value → VResult α) (v : Value) :
    VResult (List (String × α)) :=
  match v with
  | .obj fs => dictElemsV validate fs
  | _ => .error [⟨"", "Input should be a valid dictionary", some v⟩]

/-- Primitive string check. -/
def pStr : Value → Except String String
  | .str s => .ok s
  | _ => .error "Input should be a valid string"

/-- Primitive boolean check. -/
def pBool : Value → Except String Bool
  | .bool b => .ok b
  | _ => .error "Input should be a valid boolean"

/-- Primitive integer check: a number is an `int` exactly when its
denominator is 1 (an integral float coerces, a fractional one fails). -/
def pInt : Value → Except String ℤ
  | .num q => if q.den = 1 then .ok q.num else .error "Input should be a valid integer"
  | _ => .error "Input should be a valid integer"

/-- Primitive float check. -/
def pFloat : Value → Except String ℚ
  | .num q => .ok q
  | _ => .error "Input should be a valid number"

/-- `Field(ge=lo, le=hi)` on an `int` field: the value must parse as an
integer (as in `pInt`), then the `ge` and the `le` constraint are checked. -/
def pIntRange (lo hi : ℤ) (v : Value) : Except String ℤ :=
  match v with
  | .num q =>
    if q.den = 1 then
      if lo ≤ q.num then
        if q.num ≤ hi then .ok q.num
        else .error "Input should be less than or equal to the maximum"
      else .error "Input should be greater than or equal to the minimum"
    else .error "Input should be a valid integer"
  | _ => .error "Input should be a valid integer"

/-- `Field(ge=lo, le=hi)` on a `float` field: the value must be a number
(as in `pFloat`), then the `ge` and the `le` constraint are checked. -/
def pFloatRange (lo hi : ℚ) (v : Value) : Except String ℚ :=
  match v with
  | .num q =>
    if lo ≤ q then
      if q ≤ hi then .ok q
      else .error "Input should be less than or equal to the maximum"
    else .error "Input should be greater than or equal to the minimum"
  | _ => .error "Input should be a valid number"

/-- `Any` check: every wire value is accepted as-is. -/
def pAny : Value → Except String Value := fun v => .ok v

end SmartLearn

namespace SmartLearn

/-! ### datetime -/

/-- A `datetime` value (UTC, second precision, as exchanged in the ISO-8601
wire format `YYYY-MM-DDTHH:MM:SSZ`). -/
structure DateTime where
  year : ℕ
  month : ℕ
  day : ℕ
  hour : ℕ
  minute : ℕ
  second : ℕ
deriving Repr, DecidableEq

/-- The component ranges a parsed `datetime` satisfies. -/
def DateTime.wf (d : DateTime) : Prop :=
  d.year ≤ 9999 ∧ 1 ≤ d.month ∧ d.month ≤ 12 ∧ 1 ≤ d.day ∧ d.day ≤ 31 ∧
    d.hour ≤ 23 ∧ d.minute ≤ 59 ∧ d.second ≤ 59

instance (d : DateTime) : Decidable d.wf := by
  unfold DateTime.wf; infer_instance

/-- One decimal digit of a character, if it is a digit. -/
def digitVal (c : Char) : Option ℕ :=
  if c.isDigit then some (c.toNat - 48) else none

/-- Consume one expected literal character. -/
def expect (c : Char) : List Char → Option (List Char)
  | c' :: rest => if c' = c then some rest else none
  | [] => none

/-- Consume a two-digit decimal number. -/
def parse2 : List Char → Option (ℕ × List Char)
  | c₁ :: c₂ :: rest =>
    match digitVal c₁, digitVal c₂ with
    | some a, some b => some (a * 10 + b, rest)
    | _, _ => none
  | _ => none

/-- Consume a four-digit decimal number. -/
def parse4 : List Char → Option (ℕ × List Char)
  | c₁ :: c₂ :: c₃ :: c₄ :: rest =>
    match digitVal c₁, digitVal c₂, digitVal c₃, digitVal c₄ with
    | some a, some b, some c, some d => some (((a * 10 + b) * 10 + c) * 10 + d, rest)
    | _, _, _, _ => none
  | _ => none

/-- Zero-padded two-digit decimal rendering (for `n < 100`). -/
def pad2 (n : ℕ) : List Char :=
  [Nat.digitChar (n / 10), Nat.digitChar (n % 10)]

/-- Zero-padded four-digit decimal rendering (for `n < 10000`). -/
def pad4 (n : ℕ) : List Char :=
  [Nat.digitChar (n / 1000), Nat.digitChar (n / 100 % 10),
   Nat.digitChar (n / 10 % 10), Nat.digitChar (n % 10)]

/-- Render a `DateTime` as its ISO-8601 wire string. -/
def formatDateTime (d : DateTime) : String :=
  ⟨pad4 d.year ++ '-' :: pad2 d.month ++ '-' :: pad2 d.day ++
    'T' :: pad2 d.hour ++ ':' :: pad2 d.minute ++ ':' :: pad2 d.second ++ ['Z']⟩

/-- Parse an ISO-8601 `YYYY-MM-DDTHH:MM:SSZ` string into a `DateTime`,
checking the calendar component ranges. -/
def parseDateTime (s : String) : Option DateTime := do
  let (y, r) ← parse4 s.data
  let r ← expect '-' r
  let (mo, r) ← parse2 r
  let r ← expect '-' r
  let (dy, r) ← parse2 r
  let r ← expect 'T' r
  let (hr, r) ← parse2 r
  let r ← expect ':' r
  let (mi, r) ← parse2 r
  let r ← expect ':' r
  let (se, r) ← parse2 r
  let r ← expect 'Z' r
  match r with
  | [] =>
    let dt : DateTime := ⟨y, mo, dy, hr, mi, se⟩
    if dt.wf then some dt else none
  | _ => none

/-- `datetime` field check: accepts an ISO-8601 string. -/
def pDateTime : Value → Except String DateTime
  | .str s =>
    match parseDateTime s with
    | some d => .ok d
    | none => .error "Input should be a valid datetime"
  | _ => .error "Input should be a valid datetime"

end SmartLearn

namespace SmartLearn

/-! ### Enumerations (`str, Enum` classes of the source) -/

/-- `DifficultyLevel`: beginner / intermediate / advanced. -/
inductive DifficultyLevel where
  | beginner | intermediate | advanced
deriving Repr, DecidableEq

/-- Case-sensitive exact match against the declared literals. -/
def DifficultyLevel.ofStr : String → Option DifficultyLevel
  | "beginner" => some .beginner
  | "intermediate" => some .intermediate
  | "advanced" => some .advanced
  | _ => none

/-- The string literal value of a `DifficultyLevel` member. -/
def DifficultyLevel.toStr : DifficultyLevel → String
  | .beginner => "beginner"
  | .intermediate => "intermediate"
  | .advanced => "advanced"

/-- `ExplanationDepth`: basic / detailed / comprehensive. -/
inductive ExplanationDepth where
  | basic | detailed | comprehensive
deriving Repr, DecidableEq

def ExplanationDepth.ofStr : String → Option ExplanationDepth
  | "basic" => some .basic
  | "detailed" => some .detailed
  | "comprehensive" => some .comprehensive
  | _ => none

/-- `ExplanationStyle`: detailed / concise / example-heavy. -/
inductive ExplanationStyle where
  | detailed | concise | exampleHeavy
deriving Repr, DecidableEq

def ExplanationStyle.ofStr : String → Option ExplanationStyle
  | "detailed" => some .detailed
  | "concise" => some .concise
  | "example-heavy" => some .exampleHeavy
  | _ => none

/-- `InteractionType`: concept_explanation / code_analysis / debugging_help. -/
inductive InteractionType where
  | conceptExplanation | codeAnalysis | debuggingHelp
deriving Repr, DecidableEq

def InteractionType.ofStr : String → Option InteractionType
  | "concept_explanation" => some .conceptExplanation
  | "code_analysis" => some .codeAnalysis
  | "debugging_help" => some .debuggingHelp
  | _ => none

/-- `DocumentType`: tutorial / documentation / example / reference. -/
inductive DocumentType where
  | tutorial | documentation | example | reference
deriving Repr, DecidableEq

def DocumentType.ofStr : String → Option DocumentType
  | "tutorial" => some .tutorial
  | "documentation" => some .documentation
  | "example" => some .example
  | "reference" => some .reference
  | _ => none

/-- `IssueType`: error / warning / suggestion. -/
inductive IssueType where
  | error | warning | suggestion
deriving Repr, DecidableEq

def IssueType.ofStr : String → Option IssueType
  | "error" => some .error
  | "warning" => some .warning
  | "suggestion" => some .suggestion
  | _ => none

/-- `IssueSeverity`: low / medium / high. -/
inductive IssueSeverity where
  | low | medium | high
deriving Repr, DecidableEq

def IssueSeverity.ofStr : String → Option IssueSeverity
  | "low" => some .low
  | "medium" => some .medium
  | "high" => some .high
  | _ => none

/-- Enum field check: the input must be a string equal to one of the declared
literal values; anything else is a validation failure, never a default. -/
def pEnum {α : Type} (ofStr : String → Option α) (v : Value) : Except String α :=
  match v with
  | .str s =>
    match ofStr s with
    | some a => .ok a
    | none => .error "Input should be a valid enumeration member"
  | _ => .error "Input should be a valid enumeration member"

end SmartLearn

namespace SmartLearn

/-! ### Record schemas and their validators -/

/-- `SkillLevel` (source lines 68-73). -/
structure SkillLevel where
  topic : String
  level : DifficultyLevel
  confidence : ℚ
  last_assessed : DateTime
deriving Repr, DecidableEq

/-- Validate a wire value against `SkillLevel`: `confidence` carries
`Field(ge=0.0, le=1.0)`. -/
def validateSkillLevel : Value → VResult SkillLevel
  | .obj fs =>
    apV (apV (apV (apV (.ok SkillLevel.mk)
      (fieldV fs "topic" (prim pStr)))
      (fieldV fs "level" (prim (pEnum DifficultyLevel.ofStr))))
      (fieldV fs "confidence" (prim (pFloatRange 0 1))))
      (fieldV fs "last_assessed" (prim pDateTime))
  | v => .error [⟨"", "Input should be a valid dictionary", some v⟩]

/-- `ExpertiseLevel` (source lines 75-77): `domain_expertise` is a plain
`Dict[str, float]` — the `(0-1)` range in its comment has no `Field`
constraint attached. -/
structure ExpertiseLevel where
  overall_level : DifficultyLevel
  domain_expertise : List (String × ℚ)
deriving Repr, DecidableEq

def validateExpertiseLevel : Value → VResult ExpertiseLevel
  | .obj fs =>
    apV (apV (.ok ExpertiseLevel.mk)
      (fieldV fs "overall_level" (prim (pEnum DifficultyLevel.ofStr))))
      (fieldD fs "domain_expertise" [] (dictV (prim pFloat)))
  | v => .error [⟨"", "Input should be a valid dictionary", some v⟩]

/-- `UserFeedback` (source lines 80-85): the three rating fields carry
`Field(ge=1, le=5)`. -/
structure UserFeedback where
  rating : ℤ
  helpful : Bool
  clarity_rating : ℤ
  accuracy_rating : ℤ
  comments : Option String
deriving Repr, DecidableEq

def validateUserFeedback : Value → VResult UserFeedback
  | .obj fs =>
    apV (apV (apV (apV (apV (.ok UserFeedback.mk)
      (fieldV fs "rating" (prim (pIntRange 1 5))))
      (fieldV fs "helpful" (prim pBool)))
      (fieldV fs "clarity_rating" (prim (pIntRange 1 5))))
      (fieldV fs "accuracy_rating" (prim (pIntRange 1 5))))
      (fieldD fs "comments" none (optV (prim pStr)))
  | v => .error [⟨"", "Input should be a valid dictionary", some v⟩]

/-- `LearningInteraction` (source lines 88-98): `processing_time` (seconds)
is a plain `float` with no constraint. -/
structure LearningInteraction where
  id : String
  user_id : String
  type : InteractionType
  query : String
  response : String
  context_used : List String
  feedback : Option UserFeedback
  timestamp : DateTime
  processing_time : ℚ
deriving Repr, DecidableEq

def validateLearningInteraction : Value → VResult LearningInteraction
  | .obj fs =>
    apV (apV (apV (apV (apV (apV (apV (apV (apV (.ok LearningInteraction.mk)
      (fieldV fs "id" (prim pStr)))
      (fieldV fs "user_id" (prim pStr)))
      (fieldV fs "type" (prim (pEnum InteractionType.ofStr))))
      (fieldV fs "query" (prim pStr)))
      (fieldV fs "response" (prim pStr)))
      (fieldD fs "context_used" [] (listV (prim pStr))))
      (fieldD fs "feedback" none (optV validateUserFeedback)))
      (fieldV fs "timestamp" (prim pDateTime)))
      (fieldV fs "processing_time" (prim pFloat))
  | v => .error [⟨"", "Input should be a valid dictionary", some v⟩]

/-- `DocumentMetadata` (source lines 190-196). -/
structure DocumentMetadata where
  author : String
  created_date : DateTime
  last_updated : DateTime
  version : String
  language : Option String
  framework : Option String
deriving Repr, DecidableEq

def validateDocumentMetadata : Value → VResult DocumentMetadata
  | .obj fs =>
    apV (apV (apV (apV (apV (apV (.ok DocumentMetadata.mk)
      (fieldV fs "author" (prim pStr)))
      (fieldV fs "created_date" (prim pDateTime)))
      (fieldV fs "last_updated" (prim pDateTime)))
      (fieldV fs "version" (prim pStr)))
      (fieldD fs "language" none (optV (prim pStr))))
      (fieldD fs "framework" none (optV (prim pStr)))
  | v => .error [⟨"", "Input should be a valid dictionary", some v⟩]

/-- `ConversationMessage` (source lines 223-227): `role` is a plain `str`
(the `'user' or 'assistant'` comment attaches no constraint). -/
structure ConversationMessage where
  role : String
  content : String
  timestamp : DateTime
  metadata : Option (List (String × Value))

def validateConversationMessage : Value → VResult ConversationMessage
  | .obj fs =>
    apV (apV (apV (apV (.ok ConversationMessage.mk)
      (fieldV fs "role" (prim pStr)))
      (fieldV fs "content" (prim pStr)))
      (fieldV fs "timestamp" (prim pDateTime)))
      (fieldD fs "metadata" none (optV (dictV (prim pAny))))
  | v => .error [⟨"", "Input should be a valid dictionary", some v⟩]

/-- `SearchResult` (source lines 251-256): `relevance_score` carries
`Field(ge=0.0, le=1.0)`. -/
structure SearchResult where
  document_id : String
  title : String
  content_snippet : String
  relevance_score : ℚ
  metadata : DocumentMetadata
deriving Repr, DecidableEq

def validateSearchResult : Value → VResult SearchResult
  | .obj fs =>
    apV (apV (apV (apV (apV (.ok SearchResult.mk)
      (fieldV fs "document_id" (prim pStr)))
      (fieldV fs "title" (prim pStr)))
      (fieldV fs "content_snippet" (prim pStr)))
      (fieldV fs "relevance_score" (prim (pFloatRange 0 1))))
      (fieldV fs "metadata" validateDocumentMetadata)
  | v => .error [⟨"", "Input should be a valid dictionary", some v⟩]

/-- `LearningResource` (source lines 259-267): `type` is a plain `str` and
`estimated_time` (minutes) a plain `int`, both unconstrained. -/
structure LearningResource where
  id : String
  title : String
  type : String
  url : Option String
  content : Option String
  difficulty_level : DifficultyLevel
  estimated_time : ℤ
deriving Repr, DecidableEq

def validateLearningResource : Value → VResult LearningResource
  | .obj fs =>
    apV (apV (apV (apV (apV (apV (apV (.ok LearningResource.mk)
      (fieldV fs "id" (prim pStr)))
      (fieldV fs "title" (prim pStr)))
      (fieldV fs "type" (prim pStr)))
      (fieldD fs "url" none (optV (prim pStr))))
      (fieldD fs "content" none (optV (prim pStr))))
      (fieldV fs "difficulty_level" (prim (pEnum DifficultyLevel.ofStr))))
      (fieldV fs "estimated_time" (prim pInt))
  | v => .error [⟨"", "Input should be a valid dictionary", some v⟩]

/-- `Milestone` (source lines 269-275): `estimated_time` (hours) is a plain
unconstrained `int`. -/
structure Milestone where
  id : String
  title : String
  description : String
  required_skills : List String
  completion_criteria : List String
  estimated_time : ℤ
deriving Repr, DecidableEq

def validateMilestone : Value → VResult Milestone
  | .obj fs =>
    apV (apV (apV (apV (apV (apV (.ok Milestone.mk)
      (fieldV fs "id" (prim pStr)))
      (fieldV fs "title" (prim pStr)))
      (fieldV fs "description" (prim pStr)))
      (fieldD fs "required_skills" [] (listV (prim pStr))))
      (fieldD fs "completion_criteria" [] (listV (prim pStr))))
      (fieldV fs "estimated_time" (prim pInt))
  | v => .error [⟨"", "Input should be a valid dictionary", some v⟩]

/-- `SkillImprovement` (source lines 290-294). -/
structure SkillImprovement where
  topic : String
  previous_level : ℚ
  current_level : ℚ
  improvement_date : DateTime
deriving Repr, DecidableEq

def validateSkillImprovement : Value → VResult SkillImprovement
  | .obj fs =>
    apV (apV (apV (apV (.ok SkillImprovement.mk)
      (fieldV fs "topic" (prim pStr)))
      (fieldV fs "previous_level" (prim pFloat)))
      (fieldV fs "current_level" (prim pFloat)))
      (fieldV fs "improvement_date" (prim pDateTime))
  | v => .error [⟨"", "Input should be a valid dictionary", some v⟩]

/-- `ProgressMetrics` (source lines 297-303): `time_spent` (minutes) is a
plain required `int`, the counters default to 0. -/
structure ProgressMetrics where
  topics_covered : List String
  time_spent : ℤ
  concepts_learned : ℤ
  questions_asked : ℤ
  feedback_given : ℤ
  skill_improvements : List SkillImprovement
deriving Repr, DecidableEq

def validateProgressMetrics : Value → VResult ProgressMetrics
  | .obj fs =>
    apV (apV (apV (apV (apV (apV (.ok ProgressMetrics.mk)
      (fieldD fs "topics_covered" [] (listV (prim pStr))))
      (fieldV fs "time_spent" (prim pInt)))
      (fieldD fs "concepts_learned" 0 (prim pInt)))
      (fieldD fs "questions_asked" 0 (prim pInt)))
      (fieldD fs "feedback_given" 0 (prim pInt)))
      (fieldD fs "skill_improvements" [] (listV validateSkillImprovement))
  | v => .error [⟨"", "Input should be a valid dictionary", some v⟩]

/-- `PaginatedResponse` (source lines 328-334): six independent fields, no
cross-field constraint. -/
structure PaginatedResponse where
  data : List Value
  total : ℤ
  page : ℤ
  limit : ℤ
  has_next : Bool
  has_prev : Bool

def validatePaginatedResponse : Value → VResult PaginatedResponse
  | .obj fs =>
    apV (apV (apV (apV (apV (apV (.ok PaginatedResponse.mk)
      (fieldV fs "data" (listV (prim pAny))))
      (fieldV fs "total" (prim pInt)))
      (fieldV fs "page" (prim pInt)))
      (fieldV fs "limit" (prim pInt)))
      (fieldV fs "has_next" (prim pBool)))
      (fieldV fs "has_prev" (prim pBool))
  | v => .error [⟨"", "Input should be a valid dictionary", some v⟩]

/-- `GenerationContext` (source lines 357-361): `relevance_threshold` is a
plain `float` defaulting to 0.7, with no range constraint. -/
structure GenerationContext where
  query : String
  retrieved_documents : List SearchResult
  context_text : String
  relevance_threshold : ℚ
deriving Repr, DecidableEq

def validateGenerationContext : Value → VResult GenerationContext
  | .obj fs =>
    apV (apV (apV (apV (.ok GenerationContext.mk)
      (fieldV fs "query" (prim pStr)))
      (fieldV fs "retrieved_documents" (listV validateSearchResult)))
      (fieldV fs "context_text" (prim pStr)))
      (fieldD fs "relevance_threshold" 0.7 (prim pFloat))
  | v => .error [⟨"", "Input should be a valid dictionary", some v⟩]

/-- `SkillAssessment` (source lines 365-370): `confidence_score` carries
`Field(ge=0.0, le=1.0)`; `assessed_skills` maps topic to `SkillLevel`. -/
structure SkillAssessment where
  user_id : String
  assessed_skills : List (String × SkillLevel)
  confidence_score : ℚ
  assessment_date : DateTime
  assessment_method : String
deriving Repr, DecidableEq

def validateSkillAssessment : Value → VResult SkillAssessment
  | .obj fs =>
    apV (apV (apV (apV (apV (.ok SkillAssessment.mk)
      (fieldV fs "user_id" (prim pStr)))
      (fieldV fs "assessed_skills" (dictV validateSkillLevel)))
      (fieldV fs "confidence_score" (prim (pFloatRange 0 1))))
      (fieldV fs "assessment_date" (prim pDateTime)))
      (fieldV fs "assessment_method" (prim pStr))
  | v => .error [⟨"", "Input should be a valid dictionary", some v⟩]

/-- Serialize a `SkillLevel` back to its wire form: enum members serialize
as their string literal value, `datetime` as its ISO-8601 string. -/
def serializeSkillLevel (m : SkillLevel) : Value :=
  .obj [("topic", .str m.topic), ("level", .str m.level.toStr),
        ("confidence", .num m.confidence),
        ("last_assessed", .str (formatDateTime m.last_assessed))]

/-- The constraints a validated `SkillLevel` instance satisfies (exactly
what `validateSkillLevel` enforces on the typed fields). -/
def SkillLevel.valid (m : SkillLevel) : Prop :=
  0 ≤ m.confidence ∧ m.confidence ≤ 1 ∧ m.last_assessed.wf

instance (m : SkillLevel) : Decidable m.valid := by
  unfold SkillLevel.valid; infer_instance

end SmartLearn

namespace SmartLearn

/-! ### Helper lemmas -/

@[simp] lemma isOk_ok {α : Type} (a : α) : isOk (.ok a : VResult α) = true := rfl

@[simp] lemma isOk_error {α : Type} (es : List ValidationError) :
    isOk (.error es : VResult α) = false := rfl

@[simp] lemma isOk_apV {α β : Type} (f : VResult (α → β)) (x : VResult α) :
    isOk (apV f x) = (isOk f && isOk x) := by
  cases f <;> cases x <;> rfl

@[simp] lemma isOk_reroot {α : Type} (name : String) (r : VResult α) :
    isOk (reroot name r) = isOk r := by
  cases r <;> rfl

@[simp] lemma reroot_ok {α : Type} (name : String) (a : α) :
    reroot name (.ok a) = .ok a := rfl

@[simp] lemma apV_ok_ok {α β : Type} (f : α → β) (a : α) :
    apV (.ok f) (.ok a) = .ok (f a) := rfl

lemma data_mk (l : List Char) : (String.mk l).data = l := rfl

lemma digitVal_digitChar {d : ℕ} (h : d < 10) : digitVal (Nat.digitChar d) = some d := by
  have : ∀ e < 10, digitVal (Nat.digitChar e) = some e := by decide
  exact this d h

lemma expect_cons (c : Char) (rest : List Char) : expect c (c :: rest) = some rest := by
  simp [expect]

lemma parse2_pad2 {rest : List Char} (n : ℕ) (h : n < 100) :
    parse2 (pad2 n ++ rest) = some (n, rest) := by
  have h1 : n / 10 < 10 := by omega
  have h2 : n % 10 < 10 := by omega
  simp [pad2, parse2, digitVal_digitChar h1, digitVal_digitChar h2]
  omega

lemma parse4_pad4 {rest : List Char} (n : ℕ) (h : n < 10000) :
    parse4 (pad4 n ++ rest) = some (n, rest) := by
  have h1 : n / 1000 < 10 := by omega
  have h2 : n / 100 % 10 < 10 := by omega
  have h3 : n / 10 % 10 < 10 := by omega
  have h4 : n % 10 < 10 := by omega
  simp [pad4, parse4, digitVal_digitChar h1, digitVal_digitChar h2,
    digitVal_digitChar h3, digitVal_digitChar h4]
  omega

/-- Parsing inverts rendering on well-formed datetimes: the ISO-8601 wire
string of a `DateTime` parses back to the same value. -/
lemma parseDateTime_formatDateTime (d : DateTime) (h : d.wf) :
    parseDateTime (formatDateTime d) = some d := by
  obtain ⟨y, mo, dy, hr, mi, se⟩ := d
  simp only [DateTime.wf] at h
  obtain ⟨w1, w2, w3, w4, w5, w6, w7, w8⟩ := h
  have hy : y < 10000 := by omega
  have hmo : mo < 100 := by omega
  have hdy : dy < 100 := by omega
  have hhr : hr < 100 := by omega
  have hmi : mi < 100 := by omega
  have hse : se < 100 := by omega
  simp only [parseDateTime, formatDateTime, data_mk, List.append_assoc, List.cons_append]
  rw [parse4_pad4 y hy]
  simp only [Option.bind_eq_bind, Option.some_bind]
  rw [expect_cons]
  simp only [Option.some_bind]
  rw [parse2_pad2 mo hmo]
  simp only [Option.some_bind]
  rw [expect_cons]
  simp only [Option.some_bind]
  rw [parse2_pad2 dy hdy]
  simp only [Option.some_bind]
  rw [expect_cons]
  simp only [Option.some_bind]
  rw [parse2_pad2 hr hhr]
  simp only [Option.some_bind]
  rw [expect_cons]
  simp only [Option.some_bind]
  rw [parse2_pad2 mi hmi]
  simp only [Option.some_bind]
  rw [expect_cons]
  simp only [Option.some_bind]
  rw [parse2_pad2 se hse]
  simp only [Option.some_bind]
  rw [show expect 'Z' ['Z'] = some [] from rfl]
  simp only [Option.some_bind]
  simp [DateTime.wf, w1, w2, w3, w4, w5, w6, w7, w8]

/-- Validating the serialized string literal of an enum member yields the
member back. -/
lemma pEnum_toStr (l : DifficultyLevel) :
    pEnum DifficultyLevel.ofStr (.str l.toStr) = .ok l := by
  cases l <;> rfl

end SmartLearn

namespace SmartLearn

/-! ### Wire-input templates used by the scenarios -/

/-- Fields of a `SkillLevel` input with a given confidence value. -/
def skillLevelFields (c : ℚ) : List (String × Value) :=
  [("topic", .str "recursion"), ("level", .str "advanced"),
   ("confidence", .num c), ("last_assessed", .str "2024-01-01T00:00:00Z")]

/-- A `SkillLevel` wire input with a given confidence value. -/
def skillLevelInput (c : ℚ) : Value := .obj (skillLevelFields c)

/-- A concrete valid `DocumentMetadata` wire input. -/
def metadataInput : Value :=
  .obj [("author", .str "ada"), ("created_date", .str "2024-01-01T00:00:00Z"),
        ("last_updated", .str "2024-01-02T00:00:00Z"), ("version", .str "1.0")]

/-- Fields of a `SearchResult` input with a given relevance score. -/
def searchResultFields (c : ℚ) : List (String × Value) :=
  [("document_id", .str "doc-1"), ("title", .str "Recursion basics"),
   ("content_snippet", .str "recursion is ..."), ("relevance_score", .num c),
   ("metadata", metadataInput)]

/-- A `SearchResult` wire input with a given relevance score. -/
def searchResultInput (c : ℚ) : Value := .obj (searchResultFields c)

/-- Fields of a `SkillAssessment` input with a given confidence score. -/
def skillAssessmentFields (c : ℚ) : List (String × Value) :=
  [("user_id", .str "u1"), ("assessed_skills", .obj []),
   ("confidence_score", .num c),
   ("assessment_date", .str "2024-01-01T00:00:00Z"),
   ("assessment_method", .str "quiz")]

/-- A `SkillAssessment` wire input with a given confidence score. -/
def skillAssessmentInput (c : ℚ) : Value := .obj (skillAssessmentFields c)

/-- A `Field(ge=lo, le=hi)` float field validates exactly when the received
number lies in the closed interval. -/
lemma isOk_fieldV_floatRange (fs : List (String × Value)) (name : String)
    (lo hi c : ℚ) (h : lookupField fs name = some (.num c)) :
    isOk (fieldV fs name (prim (pFloatRange lo hi))) = true ↔ lo ≤ c ∧ c ≤ hi := by
  simp only [fieldV, h, isOk_reroot, prim, pFloatRange]
  split_ifs with h1 h2
  · simp [h1, h2]
  · simp only [isOk_error, Bool.false_eq_true, false_iff]
    exact fun hc => h2 hc.2
  · simp only [isOk_error, Bool.false_eq_true, false_iff]
    exact fun hc => h1 hc.1

/-- C1: the three score/confidence fields declared with
`Field(ge=0.0, le=1.0)` (`SkillLevel.confidence`,
`SearchResult.relevance_score`, `SkillAssessment.confidence_score`) validate
exactly on [0.0, 1.0]: the boundary values 0.0 and 1.0 are accepted,
-0.0001 and 1.0001 are rejected, and in general construction succeeds iff
the value lies within the closed interval. -/
theorem score_confidence_fields_bounded_unit_interval :
    (∀ c : ℚ,
      (isOk (validateSkillLevel (skillLevelInput c)) = true ↔ 0 ≤ c ∧ c ≤ 1) ∧
      (isOk (validateSearchResult (searchResultInput c)) = true ↔ 0 ≤ c ∧ c ≤ 1) ∧
      (isOk (validateSkillAssessment (skillAssessmentInput c)) = true ↔ 0 ≤ c ∧ c ≤ 1)) ∧
    isOk (validateSkillLevel (skillLevelInput 0)) = true ∧
    isOk (validateSkillLevel (skillLevelInput 1)) = true ∧
    isOk (validateSkillLevel (skillLevelInput (-0.0001))) = false ∧
    isOk (validateSkillLevel (skillLevelInput 1.0001)) = false ∧
    isOk (validateSearchResult (searchResultInput 0)) = true ∧
    isOk (validateSearchResult (searchResultInput 1)) = true ∧
    isOk (validateSearchResult (searchResultInput (-0.0001))) = false ∧
    isOk (validateSearchResult (searchResultInput 1.0001)) = false ∧
    isOk (validateSkillAssessment (skillAssessmentInput 0)) = true ∧
    isOk (validateSkillAssessment (skillAssessmentInput 1)) = true ∧
    isOk (validateSkillAssessment (skillAssessmentInput (-0.0001))) = false ∧
    isOk (validateSkillAssessment (skillAssessmentInput 1.0001)) = false := by
  have hgen : ∀ c : ℚ,
      (isOk (validateSkillLevel (skillLevelInput c)) = true ↔ 0 ≤ c ∧ c ≤ 1) ∧
      (isOk (validateSearchResult (searchResultInput c)) = true ↔ 0 ≤ c ∧ c ≤ 1) ∧
      (isOk (validateSkillAssessment (skillAssessmentInput c)) = true ↔ 0 ≤ c ∧ c ≤ 1) := by
    intro c
    refine ⟨?_, ?_, ?_⟩
    · simp only [skillLevelInput, validateSkillLevel, isOk_apV, Bool.and_eq_true]
      rw [isOk_fieldV_floatRange (skillLevelFields c) "confidence" 0 1 c rfl]
      simp [show isOk (fieldV (skillLevelFields c) "topic" (prim pStr)) = true from rfl,
        show isOk (fieldV (skillLevelFields c) "level" (prim (pEnum DifficultyLevel.ofStr))) = true from rfl,
        show isOk (fieldV (skillLevelFields c) "last_assessed" (prim pDateTime)) = true from rfl]
    · simp only [searchResultInput, validateSearchResult, isOk_apV, Bool.and_eq_true]
      rw [isOk_fieldV_floatRange (searchResultFields c) "relevance_score" 0 1 c rfl]
      simp [show isOk (fieldV (searchResultFields c) "document_id" (prim pStr)) = true from rfl,
        show isOk (fieldV (searchResultFields c) "title" (prim pStr)) = true from rfl,
        show isOk (fieldV (searchResultFields c) "content_snippet" (prim pStr)) = true from rfl,
        show isOk (fieldV (searchResultFields c) "metadata" validateDocumentMetadata) = true from rfl]
    · simp only [skillAssessmentInput, validateSkillAssessment, isOk_apV, Bool.and_eq_true]
      rw [isOk_fieldV_floatRange (skillAssessmentFields c) "confidence_score" 0 1 c rfl]
      simp [show isOk (fieldV (skillAssessmentFields c) "user_id" (prim pStr)) = true from rfl,
        show isOk (fieldV (skillAssessmentFields c) "assessed_skills" (dictV validateSkillLevel)) = true from rfl,
        show isOk (fieldV (skillAssessmentFields c) "assessment_date" (prim pDateTime)) = true from rfl,
        show isOk (fieldV (skillAssessmentFields c) "assessment_method" (prim pStr)) = true from rfl]
  refine ⟨hgen, ?_, ?_, ?_, ?_, ?_, ?_, ?_, ?_, ?_, ?_, ?_, ?_⟩
  · exact (hgen 0).1.mpr (by norm_num)
  · exact (hgen 1).1.mpr (by norm_num)
  · rw [← Bool.not_eq_true, (hgen _).1]; norm_num
  · rw [← Bool.not_eq_true, (hgen _).1]; norm_num
  · exact (hgen 0).2.1.mpr (by norm_num)
  · exact (hgen 1).2.1.mpr (by norm_num)
  · rw [← Bool.not_eq_true, (hgen _).2.1]; norm_num
  · rw [← Bool.not_eq_true, (hgen _).2.1]; norm_num
  · exact (hgen 0).2.2.mpr (by norm_num)
  · exact (hgen 1).2.2.mpr (by norm_num)
  · rw [← Bool.not_eq_true, (hgen _).2.2]; norm_num
  · rw [← Bool.not_eq_true, (hgen _).2.2]; norm_num

end SmartLearn

namespace SmartLearn

/-- Fields of a `UserFeedback` input with given values in the three rating
positions. -/
def userFeedbackFields (r cr ar : Value) : List (String × Value) :=
  [("rating", r), ("helpful", .bool true), ("clarity_rating", cr),
   ("accuracy_rating", ar)]

/-- A `UserFeedback` wire input with given rating values. -/
def userFeedbackInput (r cr ar : Value) : Value := .obj (userFeedbackFields r cr ar)

/-- A `Field(ge=lo, le=hi)` int field validates exactly when the received
value is an integer within the closed interval. -/
lemma isOk_fieldV_intRange (fs : List (String × Value)) (name : String)
    (lo hi : ℤ) (v : Value) (h : lookupField fs name = some v) :
    isOk (fieldV fs name (prim (pIntRange lo hi))) = true ↔
      ∃ n : ℤ, v = .num (n : ℚ) ∧ lo ≤ n ∧ n ≤ hi := by
  cases v with
  | num q =>
    simp only [fieldV, h, isOk_reroot, prim, pIntRange]
    by_cases hden : q.den = 1
    · rw [if_pos hden]
      have hq : (q.num : ℚ) = q := (Rat.den_eq_one_iff q).mp hden
      split_ifs with h1 h2
      · simp only [isOk_ok, true_iff]
        exact ⟨q.num, by rw [hq], h1, h2⟩
      · simp only [isOk_error, Bool.false_eq_true, false_iff]
        rintro ⟨n, hn, _, hnhi⟩
        have : q = (n : ℚ) := by injection hn
        apply h2
        rw [this, Rat.num_intCast]
        exact hnhi
      · simp only [isOk_error, Bool.false_eq_true, false_iff]
        rintro ⟨n, hn, hnlo, _⟩
        have : q = (n : ℚ) := by injection hn
        apply h1
        rw [this, Rat.num_intCast]
        exact hnlo
    · rw [if_neg hden]
      simp only [isOk_error, Bool.false_eq_true, false_iff]
      rintro ⟨n, hn, _, _⟩
      have : q = (n : ℚ) := by injection hn
      exact hden (by rw [this]; exact Rat.den_intCast n)
  | null => simp [fieldV, h, prim, pIntRange]
  | bool b => simp [fieldV, h, prim, pIntRange]
  | str s => simp [fieldV, h, prim, pIntRange]
  | arr xs => simp [fieldV, h, prim, pIntRange]
  | obj fs2 => simp [fieldV, h, prim, pIntRange]

/-- C2: the three `UserFeedback` rating fields declared with
`Field(ge=1, le=5)` (`rating`, `clarity_rating`, `accuracy_rating`) accept
exactly the integer values 1..5: validation succeeds iff every rating
position holds an integer in [1, 5]; out-of-range integers, fractional
numbers and non-numeric values are all rejected. -/
theorem rating_fields_accept_exactly_one_to_five :
    (∀ r cr ar : Value,
      isOk (validateUserFeedback (userFeedbackInput r cr ar)) = true ↔
        (∃ n : ℤ, r = .num (n : ℚ) ∧ 1 ≤ n ∧ n ≤ 5) ∧
        (∃ n : ℤ, cr = .num (n : ℚ) ∧ 1 ≤ n ∧ n ≤ 5) ∧
        (∃ n : ℤ, ar = .num (n : ℚ) ∧ 1 ≤ n ∧ n ≤ 5)) ∧
    isOk (validateUserFeedback (userFeedbackInput (.num 1) (.num 2) (.num 3))) = true ∧
    isOk (validateUserFeedback (userFeedbackInput (.num 5) (.num 4) (.num 5))) = true ∧
    isOk (validateUserFeedback (userFeedbackInput (.num 6) (.num 3) (.num 3))) = false ∧
    isOk (validateUserFeedback (userFeedbackInput (.num 0) (.num 3) (.num 3))) = false ∧
    isOk (validateUserFeedback (userFeedbackInput (.num 3.5) (.num 3) (.num 3))) = false ∧
    isOk (validateUserFeedback (userFeedbackInput (.bool true) (.num 3) (.num 3))) = false := by
  have hgen : ∀ r cr ar : Value,
      isOk (validateUserFeedback (userFeedbackInput r cr ar)) = true ↔
        (∃ n : ℤ, r = .num (n : ℚ) ∧ 1 ≤ n ∧ n ≤ 5) ∧
        (∃ n : ℤ, cr = .num (n : ℚ) ∧ 1 ≤ n ∧ n ≤ 5) ∧
        (∃ n : ℤ, ar = .num (n : ℚ) ∧ 1 ≤ n ∧ n ≤ 5) := by
    intro r cr ar
    simp only [userFeedbackInput, validateUserFeedback, isOk_apV, Bool.and_eq_true]
    rw [isOk_fieldV_intRange (userFeedbackFields r cr ar) "rating" 1 5 r rfl,
      isOk_fieldV_intRange (userFeedbackFields r cr ar) "clarity_rating" 1 5 cr rfl,
      isOk_fieldV_intRange (userFeedbackFields r cr ar) "accuracy_rating" 1 5 ar rfl]
    simp [show isOk (fieldV (userFeedbackFields r cr ar) "helpful" (prim pBool)) = true from rfl,
      show isOk (fieldD (userFeedbackFields r cr ar) "comments" none (optV (prim pStr))) = true from rfl]
    tauto
  refine ⟨hgen, ?_, ?_, ?_, ?_, ?_, ?_⟩
  · exact rfl
  · exact rfl
  · exact rfl
  · exact rfl
  · rw [← Bool.not_eq_true, hgen]
    rintro ⟨⟨n, hn, hn1, hn5⟩, _, _⟩
    have hq : (3.5 : ℚ) = (n : ℚ) := by injection hn
    have h3 : (3 : ℚ) < (n : ℚ) := by rw [← hq]; norm_num
    have h4 : (n : ℚ) < 4 := by rw [← hq]; norm_num
    have h3' : (3 : ℤ) < n := by exact_mod_cast h3
    have h4' : n < 4 := by exact_mod_cast h4
    omega
  · exact rfl

end SmartLearn

namespace SmartLearn

/-! ### C3: duration fields -/

/-- Fields of a `LearningResource` input with a given `estimated_time`. -/
def learningResourceFields (n : ℤ) : List (String × Value) :=
  [("id", .str "lr-1"), ("title", .str "Recursion drills"), ("type", .str "article"),
   ("difficulty_level", .str "beginner"), ("estimated_time", .num (n : ℚ))]

/-- Fields of a `Milestone` input with a given `estimated_time`. -/
def milestoneFields (n : ℤ) : List (String × Value) :=
  [("id", .str "m-1"), ("title", .str "Basics"), ("description", .str "finish basics"),
   ("estimated_time", .num (n : ℚ))]

/-- Fields of a `LearningInteraction` input with a given `processing_time`. -/
def learningInteractionFields (q : ℚ) : List (String × Value) :=
  [("id", .str "li-1"), ("user_id", .str "u1"), ("type", .str "concept_explanation"),
   ("query", .str "what is recursion"), ("response", .str "a function calling itself"),
   ("timestamp", .str "2024-01-01T00:00:00Z"), ("processing_time", .num q)]

/-- Fields of a `ProgressMetrics` input with a given `time_spent`. -/
def progressMetricsFields (n : ℤ) : List (String × Value) :=
  [("time_spent", .num (n : ℚ))]

/-- C3 counterexample: the claim "a construction with a negative duration
fails" is false — a `LearningResource` whose `estimated_time` is -5 minutes
passes validation, because `estimated_time: int` carries no `Field`
constraint in the source. -/
theorem negative_duration_accepted_counterexample :
    validateLearningResource (.obj (learningResourceFields (-5))) =
      .ok ⟨"lr-1", "Recursion drills", "article", none, none, .beginner, -5⟩ := rfl

/-- C3 amended: none of the four duration fields
(`LearningResource.estimated_time`, `Milestone.estimated_time`,
`LearningInteraction.processing_time`, `ProgressMetrics.time_spent`) carries
a non-negativity constraint: every negative duration passes validation. -/
theorem duration_fields_accept_negatives (n : ℤ) (q : ℚ)
    (_hn : n < 0) (_hq : q < 0) :
    isOk (validateLearningResource (.obj (learningResourceFields n))) = true ∧
    isOk (validateMilestone (.obj (milestoneFields n))) = true ∧
    isOk (validateLearningInteraction (.obj (learningInteractionFields q))) = true ∧
    isOk (validateProgressMetrics (.obj (progressMetricsFields n))) = true :=
  ⟨rfl, rfl, rfl, rfl⟩

/-- Witness for the amended C3 at the concrete negative durations -5 and -2. -/
theorem duration_fields_accept_negatives_witness :
    (-5 : ℤ) < 0 ∧ (-2 : ℚ) < 0 ∧
      (isOk (validateLearningResource (.obj (learningResourceFields (-5)))) = true ∧
       isOk (validateMilestone (.obj (milestoneFields (-5)))) = true ∧
       isOk (validateLearningInteraction (.obj (learningInteractionFields (-2)))) = true ∧
       isOk (validateProgressMetrics (.obj (progressMetricsFields (-5)))) = true) :=
  ⟨by decide, by decide, duration_fields_accept_negatives (-5) (-2) (by decide) (by decide)⟩

/-! ### C4: domain expertise scores -/

/-- The `ExpertiseLevel` wire input whose domain expertise score 1.5 exceeds
the `(0-1)` range stated in the source comment. -/
def expertiseLevelInput : Value :=
  .obj [("overall_level", .str "beginner"),
        ("domain_expertise", .obj [("python", .num 1.5)])]

/-- C4: validation of `ExpertiseLevel` accepts a domain expertise score of
1.5 unchanged — `domain_expertise: Dict[str, float]` has no `Field`
constraint, although its own comment declares the scores to be `(0-1)` and
the analogous `SkillLevel.confidence` is constrained with
`Field(ge=0.0, le=1.0)`. -/
theorem domain_expertise_out_of_range_accepted :
    validateExpertiseLevel expertiseLevelInput =
      .ok ⟨.beginner, [("python", 1.5)]⟩ := rfl

/-! ### C5: enumerated fields -/

/-- Fields of a `SkillLevel` input with a given string in the `level`
position. -/
def skillLevelLevelFields (s : String) : List (String × Value) :=
  [("topic", .str "recursion"), ("level", .str s), ("confidence", .num 1),
   ("last_assessed", .str "2024-01-01T00:00:00Z")]

/-- C5: every enumerated field accepts exactly its declared string literals
by case-sensitive exact match — each `ofStr` succeeds precisely on the
listed literals; an enum-typed record field validates exactly when its
string is recognized; and an unrecognized string such as `"expert"` for
`DifficultyLevel` produces a validation failure on that field, never a
default value. -/
theorem enum_fields_exact_case_sensitive_match :
    (∀ s : String, DifficultyLevel.ofStr s ≠ none ↔
      s = "beginner" ∨ s = "intermediate" ∨ s = "advanced") ∧
    (∀ s : String, ExplanationStyle.ofStr s ≠ none ↔
      s = "detailed" ∨ s = "concise" ∨ s = "example-heavy") ∧
    (∀ s : String, InteractionType.ofStr s ≠ none ↔
      s = "concept_explanation" ∨ s = "code_analysis" ∨ s = "debugging_help") ∧
    (∀ s : String, DocumentType.ofStr s ≠ none ↔
      s = "tutorial" ∨ s = "documentation" ∨ s = "example" ∨ s = "reference") ∧
    (∀ s : String, IssueType.ofStr s ≠ none ↔
      s = "error" ∨ s = "warning" ∨ s = "suggestion") ∧
    (∀ s : String, IssueSeverity.ofStr s ≠ none ↔
      s = "low" ∨ s = "medium" ∨ s = "high") ∧
    (∀ s : String, isOk (validateSkillLevel (.obj (skillLevelLevelFields s))) = true ↔
      DifficultyLevel.ofStr s ≠ none) ∧
    validateSkillLevel (.obj (skillLevelLevelFields "expert")) =
      .error [⟨"level", "Input should be a valid enumeration member",
               some (.str "expert")⟩] := by
  refine ⟨?_, ?_, ?_, ?_, ?_, ?_, ?_, rfl⟩ <;> intro s
  · unfold DifficultyLevel.ofStr
    split <;> simp_all
  · unfold ExplanationStyle.ofStr
    split <;> simp_all
  · unfold InteractionType.ofStr
    split <;> simp_all
  · unfold DocumentType.ofStr
    split <;> simp_all
  · unfold IssueType.ofStr
    split <;> simp_all
  · unfold IssueSeverity.ofStr
    split <;> simp_all
  · have hlev : fieldV (skillLevelLevelFields s) "level" (prim (pEnum DifficultyLevel.ofStr)) =
        reroot "level" (prim (pEnum DifficultyLevel.ofStr) (.str s)) := rfl
    simp only [validateSkillLevel, isOk_apV, Bool.and_eq_true, hlev, isOk_reroot]
    cases h : DifficultyLevel.ofStr s with
    | some d =>
      simp [prim, pEnum, h,
        show isOk (fieldV (skillLevelLevelFields s) "topic" (prim pStr)) = true from rfl,
        show isOk (fieldV (skillLevelLevelFields s) "confidence" (prim (pFloatRange 0 1))) = true from rfl,
        show isOk (fieldV (skillLevelLevelFields s) "last_assessed" (prim pDateTime)) = true from rfl]
    | none =>
      simp [prim, pEnum, h]

end SmartLearn

namespace SmartLearn

/-- Serialize a `UserFeedback` back to its wire form (`None` comments
serialize as JSON null). -/
def serializeUserFeedback (m : UserFeedback) : Value :=
  .obj [("rating", .num (m.rating : ℚ)), ("helpful", .bool m.helpful),
        ("clarity_rating", .num (m.clarity_rating : ℚ)),
        ("accuracy_rating", .num (m.accuracy_rating : ℚ)),
        ("comments", match m.comments with | none => .null | some s => .str s)]

/-- The constraints a validated `UserFeedback` instance satisfies. -/
def UserFeedback.valid (m : UserFeedback) : Prop :=
  1 ≤ m.rating ∧ m.rating ≤ 5 ∧ 1 ≤ m.clarity_rating ∧ m.clarity_rating ≤ 5 ∧
    1 ≤ m.accuracy_rating ∧ m.accuracy_rating ≤ 5

instance (m : UserFeedback) : Decidable m.valid := by
  unfold UserFeedback.valid; infer_instance

/-- Re-validating a serialized valid `UserFeedback` yields it back. -/
lemma validateUserFeedback_serialize (m : UserFeedback) (hv : m.valid) :
    validateUserFeedback (serializeUserFeedback m) = .ok m := by
  obtain ⟨r, hel, cr, ar, co⟩ := m
  simp only [UserFeedback.valid] at hv
  obtain ⟨h1, h2, h3, h4, h5, h6⟩ := hv
  cases co with
  | none =>
    simp only [serializeUserFeedback, validateUserFeedback]
    have e1 : fieldV [("rating", .num (r : ℚ)), ("helpful", .bool hel),
        ("clarity_rating", .num (cr : ℚ)), ("accuracy_rating", .num (ar : ℚ)),
        ("comments", Value.null)] "rating" (prim (pIntRange 1 5)) = .ok r := by
      simp [fieldV, show lookupField [("rating", Value.num (r : ℚ)), ("helpful", Value.bool hel),
        ("clarity_rating", Value.num (cr : ℚ)), ("accuracy_rating", Value.num (ar : ℚ)),
        ("comments", Value.null)] "rating" = some (.num (r : ℚ)) from rfl,
        prim, pIntRange, h1, h2]
    have e3 : fieldV [("rating", .num (r : ℚ)), ("helpful", .bool hel),
        ("clarity_rating", .num (cr : ℚ)), ("accuracy_rating", .num (ar : ℚ)),
        ("comments", Value.null)] "clarity_rating" (prim (pIntRange 1 5)) = .ok cr := by
      simp [fieldV, show lookupField [("rating", Value.num (r : ℚ)), ("helpful", Value.bool hel),
        ("clarity_rating", Value.num (cr : ℚ)), ("accuracy_rating", Value.num (ar : ℚ)),
        ("comments", Value.null)] "clarity_rating" = some (.num (cr : ℚ)) from rfl,
        prim, pIntRange, h3, h4]
    have e4 : fieldV [("rating", .num (r : ℚ)), ("helpful", .bool hel),
        ("clarity_rating", .num (cr : ℚ)), ("accuracy_rating", .num (ar : ℚ)),
        ("comments", Value.null)] "accuracy_rating" (prim (pIntRange 1 5)) = .ok ar := by
      simp [fieldV, show lookupField [("rating", Value.num (r : ℚ)), ("helpful", Value.bool hel),
        ("clarity_rating", Value.num (cr : ℚ)), ("accuracy_rating", Value.num (ar : ℚ)),
        ("comments", Value.null)] "accuracy_rating" = some (.num (ar : ℚ)) from rfl,
        prim, pIntRange, h5, h6]
    rw [e1, e3, e4]
    rfl
  | some s =>
    simp only [serializeUserFeedback, validateUserFeedback]
    have e1 : fieldV [("rating", .num (r : ℚ)), ("helpful", .bool hel),
        ("clarity_rating", .num (cr : ℚ)), ("accuracy_rating", .num (ar : ℚ)),
        ("comments", Value.str s)] "rating" (prim (pIntRange 1 5)) = .ok r := by
      simp [fieldV, show lookupField [("rating", Value.num (r : ℚ)), ("helpful", Value.bool hel),
        ("clarity_rating", Value.num (cr : ℚ)), ("accuracy_rating", Value.num (ar : ℚ)),
        ("comments", Value.str s)] "rating" = some (.num (r : ℚ)) from rfl,
        prim, pIntRange, h1, h2]
    have e3 : fieldV [("rating", .num (r : ℚ)), ("helpful", .bool hel),
        ("clarity_rating", .num (cr : ℚ)), ("accuracy_rating", .num (ar : ℚ)),
        ("comments", Value.str s)] "clarity_rating" (prim (pIntRange 1 5)) = .ok cr := by
      simp [fieldV, show lookupField [("rating", Value.num (r : ℚ)), ("helpful", Value.bool hel),
        ("clarity_rating", Value.num (cr : ℚ)), ("accuracy_rating", Value.num (ar : ℚ)),
        ("comments", Value.str s)] "clarity_rating" = some (.num (cr : ℚ)) from rfl,
        prim, pIntRange, h3, h4]
    have e4 : fieldV [("rating", .num (r : ℚ)), ("helpful", .bool hel),
        ("clarity_rating", .num (cr : ℚ)), ("accuracy_rating", .num (ar : ℚ)),
        ("comments", Value.str s)] "accuracy_rating" (prim (pIntRange 1 5)) = .ok ar := by
      simp [fieldV, show lookupField [("rating", Value.num (r : ℚ)), ("helpful", Value.bool hel),
        ("clarity_rating", Value.num (cr : ℚ)), ("accuracy_rating", Value.num (ar : ℚ)),
        ("comments", Value.str s)] "accuracy_rating" = some (.num (ar : ℚ)) from rfl,
        prim, pIntRange, h5, h6]
    rw [e1, e3, e4]
    rfl

end SmartLearn

namespace SmartLearn

/-- Re-validating a serialized valid `SkillLevel` yields it back. -/
lemma validateSkillLevel_serialize (m : SkillLevel) (hv : m.valid) :
    validateSkillLevel (serializeSkillLevel m) = .ok m := by
  obtain ⟨topic, level, conf, la⟩ := m
  simp only [SkillLevel.valid] at hv
  obtain ⟨hc0, hc1, hwf⟩ := hv
  simp only [serializeSkillLevel, validateSkillLevel]
  have h1 : fieldV [("topic", .str topic), ("level", .str (DifficultyLevel.toStr level)),
      ("confidence", .num conf), ("last_assessed", .str (formatDateTime la))]
      "topic" (prim pStr) = .ok topic := rfl
  have h2 : fieldV [("topic", .str topic), ("level", .str (DifficultyLevel.toStr level)),
      ("confidence", .num conf), ("last_assessed", .str (formatDateTime la))]
      "level" (prim (pEnum DifficultyLevel.ofStr)) = .ok level := by
    simp [fieldV, show lookupField [("topic", Value.str topic),
      ("level", Value.str (DifficultyLevel.toStr level)), ("confidence", Value.num conf),
      ("last_assessed", Value.str (formatDateTime la))] "level" =
        some (.str (DifficultyLevel.toStr level)) from rfl,
      prim, pEnum_toStr level]
  have h3 : fieldV [("topic", .str topic), ("level", .str (DifficultyLevel.toStr level)),
      ("confidence", .num conf), ("last_assessed", .str (formatDateTime la))]
      "confidence" (prim (pFloatRange 0 1)) = .ok conf := by
    simp [fieldV, show lookupField [("topic", Value.str topic),
      ("level", Value.str (DifficultyLevel.toStr level)), ("confidence", Value.num conf),
      ("last_assessed", Value.str (formatDateTime la))] "confidence" =
        some (.num conf) from rfl,
      prim, pFloatRange, hc0, hc1]
  have h4 : fieldV [("topic", .str topic), ("level", .str (DifficultyLevel.toStr level)),
      ("confidence", .num conf), ("last_assessed", .str (formatDateTime la))]
      "last_assessed" (prim pDateTime) = .ok la := by
    simp [fieldV, show lookupField [("topic", Value.str topic),
      ("level", Value.str (DifficultyLevel.toStr level)), ("confidence", Value.num conf),
      ("last_assessed", Value.str (formatDateTime la))] "last_assessed" =
        some (.str (formatDateTime la)) from rfl,
      prim, pDateTime, parseDateTime_formatDateTime la hwf]
  rw [h1, h2, h3, h4]
  rfl

/-! ### Serialization helpers and generic round-trip lemmas -/

/-- Serialize an optional field: `None` becomes JSON null. -/
def serializeOpt {α : Type} (s : α → Value) : Option α → Value
  | none => .null
  | some a => s a

/-- A predicate holding on the payload of an optional value, if present. -/
def OptValid {α : Type} (P : α → Prop) : Option α → Prop
  | none => True
  | some a => P a

instance {α : Type} {P : α → Prop} [DecidablePred P] :
    (o : Option α) → Decidable (OptValid P o)
  | none => .isTrue trivial
  | some a => ‹DecidablePred P› a

lemma OptValid_some {α : Type} {P : α → Prop} {o : Option α} {a : α}
    (h : OptValid P o) (he : o = some a) : P a := by
  subst he; exact h

/-- Is a wire value the JSON null? -/
def Value.isNull : Value → Bool
  | .null => true
  | _ => false

@[simp] lemma prim_pStr (s : String) : prim pStr (.str s) = .ok s := rfl

@[simp] lemma prim_pBool (b : Bool) : prim pBool (.bool b) = .ok b := rfl

@[simp] lemma prim_pInt_intCast (n : ℤ) : prim pInt (.num (n : ℚ)) = .ok n := rfl

@[simp] lemma prim_pFloat (q : ℚ) : prim pFloat (.num q) = .ok q := rfl

@[simp] lemma prim_pAny (v : Value) : prim pAny v = .ok v := rfl

lemma prim_pDateTime_format (d : DateTime) (h : d.wf) :
    prim pDateTime (.str (formatDateTime d)) = .ok d := by
  simp [prim, pDateTime, parseDateTime_formatDateTime d h]

lemma prim_pIntRange_intCast (lo hi n : ℤ) (h1 : lo ≤ n) (h2 : n ≤ hi) :
    prim (pIntRange lo hi) (.num (n : ℚ)) = .ok n := by
  simp [prim, pIntRange, Rat.den_intCast, Rat.num_intCast, h1, h2]

lemma prim_pFloatRange (lo hi q : ℚ) (h1 : lo ≤ q) (h2 : q ≤ hi) :
    prim (pFloatRange lo hi) (.num q) = .ok q := by
  simp [prim, pFloatRange, h1, h2]

/-- The string literal value of an `ExplanationStyle` member. -/
def ExplanationStyle.toStr : ExplanationStyle → String
  | .detailed => "detailed"
  | .concise => "concise"
  | .exampleHeavy => "example-heavy"

/-- The string literal value of an `InteractionType` member. -/
def InteractionType.toStr : InteractionType → String
  | .conceptExplanation => "concept_explanation"
  | .codeAnalysis => "code_analysis"
  | .debuggingHelp => "debugging_help"

/-- The string literal value of a `DocumentType` member. -/
def DocumentType.toStr : DocumentType → String
  | .tutorial => "tutorial"
  | .documentation => "documentation"
  | .example => "example"
  | .reference => "reference"

/-- The string literal value of an `IssueType` member. -/
def IssueType.toStr : IssueType → String
  | .error => "error"
  | .warning => "warning"
  | .suggestion => "suggestion"

/-- The string literal value of an `IssueSeverity` member. -/
def IssueSeverity.toStr : IssueSeverity → String
  | .low => "low"
  | .medium => "medium"
  | .high => "high"

@[simp] lemma prim_pEnum_DifficultyLevel (l : DifficultyLevel) :
    prim (pEnum DifficultyLevel.ofStr) (.str (DifficultyLevel.toStr l)) = .ok l := by
  cases l <;> rfl

@[simp] lemma prim_pEnum_ExplanationStyle (l : ExplanationStyle) :
    prim (pEnum ExplanationStyle.ofStr) (.str (ExplanationStyle.toStr l)) = .ok l := by
  cases l <;> rfl

@[simp] lemma prim_pEnum_InteractionType (l : InteractionType) :
    prim (pEnum InteractionType.ofStr) (.str (InteractionType.toStr l)) = .ok l := by
  cases l <;> rfl

@[simp] lemma prim_pEnum_DocumentType (l : DocumentType) :
    prim (pEnum DocumentType.ofStr) (.str (DocumentType.toStr l)) = .ok l := by
  cases l <;> rfl

@[simp] lemma prim_pEnum_IssueType (l : IssueType) :
    prim (pEnum IssueType.ofStr) (.str (IssueType.toStr l)) = .ok l := by
  cases l <;> rfl

@[simp] lemma prim_pEnum_IssueSeverity (l : IssueSeverity) :
    prim (pEnum IssueSeverity.ofStr) (.str (IssueSeverity.toStr l)) = .ok l := by
  cases l <;> rfl

/-- Validating a list of serialized elements yields the original list when
every element round-trips. -/
lemma elemsV_serialize {α : Type} (validate : Value → VResult α) (s : α → Value)
    (l : List α) (i : ℕ) (h : ∀ x ∈ l, validate (s x) = .ok x) :
    elemsV validate i (l.map s) = .ok l := by
  induction l generalizing i with
  | nil => rfl
  | cons x rest ih =>
    simp only [List.map_cons, elemsV, h x (by simp), reroot_ok, apV_ok_ok,
      ih (i + 1) (fun y hy => h y (by simp [hy]))]

/-- `listV` round-trips a serialized list when every element round-trips. -/
lemma listV_serialize {α : Type} (validate : Value → VResult α) (s : α → Value)
    (l : List α) (h : ∀ x ∈ l, validate (s x) = .ok x) :
    listV validate (.arr (l.map s)) = .ok l :=
  elemsV_serialize validate s l 0 h

/-- Validating the serialized entries of a mapping yields the original
association list when every value round-trips. -/
lemma dictElemsV_serialize {α : Type} (validate : Value → VResult α) (s : α → Value)
    (l : List (String × α)) (h : ∀ p ∈ l, validate (s p.2) = .ok p.2) :
    dictElemsV validate (l.map fun p => (p.1, s p.2)) = .ok l := by
  induction l with
  | nil => rfl
  | cons p rest ih =>
    simp only [List.map_cons, dictElemsV, h p (by simp), reroot_ok, apV_ok_ok,
      ih (fun y hy => h y (by simp [hy]))]

/-- `dictV` round-trips a serialized mapping when every value round-trips. -/
lemma dictV_serialize {α : Type} (validate : Value → VResult α) (s : α → Value)
    (l : List (String × α)) (h : ∀ p ∈ l, validate (s p.2) = .ok p.2) :
    dictV validate (.obj (l.map fun p => (p.1, s p.2))) = .ok l :=
  dictElemsV_serialize validate s l h

/-- `Any`-typed lists pass through validation unchanged. -/
lemma elemsV_pAny (i : ℕ) (l : List Value) : elemsV (prim pAny) i l = .ok l := by
  induction l generalizing i with
  | nil => rfl
  | cons x rest ih => simp [elemsV, ih]

/-- `Any`-valued mappings pass through validation unchanged. -/
lemma dictElemsV_pAny (l : List (String × Value)) : dictElemsV (prim pAny) l = .ok l := by
  induction l with
  | nil => rfl
  | cons p rest ih => simp [dictElemsV, ih]

/-- An optional field round-trips when a present payload round-trips. -/
lemma optV_serializeOpt {α : Type} (validate : Value → VResult α) (s : α → Value)
    (o : Option α) (h : ∀ a, o = some a → optV validate (s a) = .ok (some a)) :
    optV validate (serializeOpt s o) = .ok o := by
  cases o with
  | none => rfl
  | some a => exact h a rfl



/-- Wire encoding of an `int` field value. -/
def encInt (n : ℤ) : Value := .num (n : ℚ)

/-- Wire encoding of a `datetime` field value. -/
def encDateTime (d : DateTime) : Value := .str (formatDateTime d)

@[simp] lemma prim_pInt_encInt (n : ℤ) : prim pInt (encInt n) = .ok n := rfl

lemma prim_pDateTime_encDateTime (d : DateTime) (h : d.wf) :
    prim pDateTime (encDateTime d) = .ok d := by
  simp [encDateTime, prim, pDateTime, parseDateTime_formatDateTime d h]

/-! ### Remaining record schemas, validators, serializers and round-trips -/

/-- `NotificationSettings` (source lines 54-58): four booleans, all
defaulting to true. -/
structure NotificationSettings where
  email_notifications : Bool
  push_notifications : Bool
  learning_reminders : Bool
  progress_updates : Bool
deriving Repr, DecidableEq

def validateNotificationSettings : Value → VResult NotificationSettings
  | .obj fs =>
    apV (apV (apV (apV (.ok NotificationSettings.mk)
      (fieldD fs "email_notifications" true (prim pBool)))
      (fieldD fs "push_notifications" true (prim pBool)))
      (fieldD fs "learning_reminders" true (prim pBool)))
      (fieldD fs "progress_updates" true (prim pBool))
  | v => .error [⟨"", "Input should be a valid dictionary", some v⟩]

def serializeNotificationSettings (m : NotificationSettings) : Value :=
  .obj [("email_notifications", .bool m.email_notifications),
        ("push_notifications", .bool m.push_notifications),
        ("learning_reminders", .bool m.learning_reminders),
        ("progress_updates", .bool m.progress_updates)]

lemma validateNotificationSettings_serialize (m : NotificationSettings) :
    validateNotificationSettings (serializeNotificationSettings m) = .ok m := rfl

/-- `Example` (source lines 117-122). -/
structure Example where
  title : String
  description : String
  code_snippet : Option String
  language : Option String
  use_case : String
deriving Repr, DecidableEq

def validateExample : Value → VResult Example
  | .obj fs =>
    apV (apV (apV (apV (apV (.ok Example.mk)
      (fieldV fs "title" (prim pStr)))
      (fieldV fs "description" (prim pStr)))
      (fieldD fs "code_snippet" none (optV (prim pStr))))
      (fieldD fs "language" none (optV (prim pStr))))
      (fieldV fs "use_case" (prim pStr))
  | v => .error [⟨"", "Input should be a valid dictionary", some v⟩]

def serializeExample (m : Example) : Value :=
  .obj [("title", .str m.title), ("description", .str m.description),
        ("code_snippet", serializeOpt Value.str m.code_snippet),
        ("language", serializeOpt Value.str m.language),
        ("use_case", .str m.use_case)]

lemma validateExample_serialize (m : Example) :
    validateExample (serializeExample m) = .ok m := by
  obtain ⟨t, d, cs, lg, uc⟩ := m
  have h1 := optV_serializeOpt (prim pStr) Value.str cs (fun a _ => rfl)
  have h2 := optV_serializeOpt (prim pStr) Value.str lg (fun a _ => rfl)
  simp [validateExample, serializeExample, fieldV, fieldD, lookupField, h1, h2]

/-- `Analogy` (source lines 125-128). -/
structure Analogy where
  concept : String
  analogy : String
  explanation : String
deriving Repr, DecidableEq

def validateAnalogy : Value → VResult Analogy
  | .obj fs =>
    apV (apV (apV (.ok Analogy.mk)
      (fieldV fs "concept" (prim pStr)))
      (fieldV fs "analogy" (prim pStr)))
      (fieldV fs "explanation" (prim pStr))
  | v => .error [⟨"", "Input should be a valid dictionary", some v⟩]

def serializeAnalogy (m : Analogy) : Value :=
  .obj [("concept", .str m.concept), ("analogy", .str m.analogy),
        ("explanation", .str m.explanation)]

lemma validateAnalogy_serialize (m : Analogy) :
    validateAnalogy (serializeAnalogy m) = .ok m := rfl

/-- `StepByStep` (source lines 131-135). -/
structure StepByStep where
  step_number : ℤ
  title : String
  description : String
  code_example : Option String
deriving Repr, DecidableEq

def validateStepByStep : Value → VResult StepByStep
  | .obj fs =>
    apV (apV (apV (apV (.ok StepByStep.mk)
      (fieldV fs "step_number" (prim pInt)))
      (fieldV fs "title" (prim pStr)))
      (fieldV fs "description" (prim pStr)))
      (fieldD fs "code_example" none (optV (prim pStr)))
  | v => .error [⟨"", "Input should be a valid dictionary", some v⟩]

def serializeStepByStep (m : StepByStep) : Value :=
  .obj [("step_number", encInt m.step_number), ("title", .str m.title),
        ("description", .str m.description),
        ("code_example", serializeOpt Value.str m.code_example)]

lemma validateStepByStep_serialize (m : StepByStep) :
    validateStepByStep (serializeStepByStep m) = .ok m := by
  obtain ⟨n, t, d, ce⟩ := m
  have h1 := optV_serializeOpt (prim pStr) Value.str ce (fun a _ => rfl)
  simp [validateStepByStep, serializeStepByStep, fieldV, fieldD, lookupField, h1]

/-- `LineExplanation` (source lines 150-154). -/
structure LineExplanation where
  line_number : ℤ
  code : String
  explanation : String
  concepts : List String
deriving Repr, DecidableEq

def validateLineExplanation : Value → VResult LineExplanation
  | .obj fs =>
    apV (apV (apV (apV (.ok LineExplanation.mk)
      (fieldV fs "line_number" (prim pInt)))
      (fieldV fs "code" (prim pStr)))
      (fieldV fs "explanation" (prim pStr)))
      (fieldD fs "concepts" [] (listV (prim pStr)))
  | v => .error [⟨"", "Input should be a valid dictionary", some v⟩]

def serializeLineExplanation (m : LineExplanation) : Value :=
  .obj [("line_number", encInt m.line_number), ("code", .str m.code),
        ("explanation", .str m.explanation),
        ("concepts", .arr (m.concepts.map Value.str))]

lemma validateLineExplanation_serialize (m : LineExplanation) :
    validateLineExplanation (serializeLineExplanation m) = .ok m := by
  obtain ⟨n, c, e, cs⟩ := m
  have h1 := listV_serialize (prim pStr) Value.str cs (fun x _ => rfl)
  simp [validateLineExplanation, serializeLineExplanation, fieldV, fieldD, lookupField, h1]

/-- `Issue` (source lines 157-162). -/
structure Issue where
  type : IssueType
  line_number : Option ℤ
  description : String
  solution : String
  severity : IssueSeverity
deriving Repr, DecidableEq

def validateIssue : Value → VResult Issue
  | .obj fs =>
    apV (apV (apV (apV (apV (.ok Issue.mk)
      (fieldV fs "type" (prim (pEnum IssueType.ofStr))))
      (fieldD fs "line_number" none (optV (prim pInt))))
      (fieldV fs "description" (prim pStr)))
      (fieldV fs "solution" (prim pStr)))
      (fieldV fs "severity" (prim (pEnum IssueSeverity.ofStr)))
  | v => .error [⟨"", "Input should be a valid dictionary", some v⟩]

def serializeIssue (m : Issue) : Value :=
  .obj [("type", .str (IssueType.toStr m.type)),
        ("line_number", serializeOpt encInt m.line_number),
        ("description", .str m.description), ("solution", .str m.solution),
        ("severity", .str (IssueSeverity.toStr m.severity))]

lemma validateIssue_serialize (m : Issue) :
    validateIssue (serializeIssue m) = .ok m := by
  obtain ⟨ty, ln, de, so, sev⟩ := m
  have h1 := optV_serializeOpt (prim pInt) encInt ln (fun a _ => rfl)
  simp [validateIssue, serializeIssue, fieldV, fieldD, lookupField, h1]

/-- `Fix` (source lines 176-179). -/
structure Fix where
  description : String
  code_change : Option String
  explanation : String
deriving Repr, DecidableEq

def validateFix : Value → VResult Fix
  | .obj fs =>
    apV (apV (apV (.ok Fix.mk)
      (fieldV fs "description" (prim pStr)))
      (fieldD fs "code_change" none (optV (prim pStr))))
      (fieldV fs "explanation" (prim pStr))
  | v => .error [⟨"", "Input should be a valid dictionary", some v⟩]

def serializeFix (m : Fix) : Value :=
  .obj [("description", .str m.description),
        ("code_change", serializeOpt Value.str m.code_change),
        ("explanation", .str m.explanation)]

lemma validateFix_serialize (m : Fix) : validateFix (serializeFix m) = .ok m := by
  obtain ⟨d, cc, e⟩ := m
  have h1 := optV_serializeOpt (prim pStr) Value.str cc (fun a _ => rfl)
  simp [validateFix, serializeFix, fieldV, fieldD, lookupField, h1]

/-- `LoginCredentials` (source lines 218-220). -/
structure LoginCredentials where
  email : String
  password : String
deriving Repr, DecidableEq

def validateLoginCredentials : Value → VResult LoginCredentials
  | .obj fs =>
    apV (apV (.ok LoginCredentials.mk)
      (fieldV fs "email" (prim pStr)))
      (fieldV fs "password" (prim pStr))
  | v => .error [⟨"", "Input should be a valid dictionary", some v⟩]

def serializeLoginCredentials (m : LoginCredentials) : Value :=
  .obj [("email", .str m.email), ("password", .str m.password)]

lemma validateLoginCredentials_serialize (m : LoginCredentials) :
    validateLoginCredentials (serializeLoginCredentials m) = .ok m := rfl

/-- `ApiResponse` (source lines 321-325). -/
structure ApiResponse where
  success : Bool
  data : Option Value
  error : Option String
  message : Option String
deriving Repr

def validateApiResponse : Value → VResult ApiResponse
  | .obj fs =>
    apV (apV (apV (apV (.ok ApiResponse.mk)
      (fieldV fs "success" (prim pBool)))
      (fieldD fs "data" none (optV (prim pAny))))
      (fieldD fs "error" none (optV (prim pStr))))
      (fieldD fs "message" none (optV (prim pStr)))
  | v => .error [⟨"", "Input should be a valid dictionary", some v⟩]

def serializeApiResponse (m : ApiResponse) : Value :=
  .obj [("success", .bool m.success), ("data", serializeOpt (fun v => v) m.data),
        ("error", serializeOpt Value.str m.error),
        ("message", serializeOpt Value.str m.message)]

/-- What validation guarantees for an `ApiResponse`: a present `Any` payload
is never the JSON null (null always parses to `None`). -/
def ApiResponse.valid (m : ApiResponse) : Prop :=
  OptValid (fun v => Value.isNull v = false) m.data

instance (m : ApiResponse) : Decidable m.valid := by
  unfold ApiResponse.valid; infer_instance

lemma validateApiResponse_serialize (m : ApiResponse) (hv : m.valid) :
    validateApiResponse (serializeApiResponse m) = .ok m := by
  obtain ⟨su, da, er, me⟩ := m
  simp only [ApiResponse.valid] at hv
  have h1 : optV (prim pAny) (serializeOpt (fun v => v) da) = .ok da := by
    refine optV_serializeOpt (prim pAny) (fun v => v) da (fun a ha => ?_)
    have hn := OptValid_some hv ha
    cases a <;> simp_all [Value.isNull] <;> rfl
  have h2 := optV_serializeOpt (prim pStr) Value.str er (fun a _ => rfl)
  have h3 := optV_serializeOpt (prim pStr) Value.str me (fun a _ => rfl)
  simp [validateApiResponse, serializeApiResponse, fieldV, fieldD, lookupField, h1, h2, h3]

/-- `ApiError` (source lines 337-340). -/
structure ApiError where
  code : String
  message : String
  details : Option (List (String × Value))
deriving Repr

def validateApiError : Value → VResult ApiError
  | .obj fs =>
    apV (apV (apV (.ok ApiError.mk)
      (fieldV fs "code" (prim pStr)))
      (fieldV fs "message" (prim pStr)))
      (fieldD fs "details" none (optV (dictV (prim pAny))))
  | v => .error [⟨"", "Input should be a valid dictionary", some v⟩]

def serializeApiError (m : ApiError) : Value :=
  .obj [("code", .str m.code), ("message", .str m.message),
        ("details", serializeOpt Value.obj m.details)]

lemma validateApiError_serialize (m : ApiError) :
    validateApiError (serializeApiError m) = .ok m := by
  obtain ⟨c, ms, de⟩ := m
  have h1 : optV (dictV (prim pAny)) (serializeOpt Value.obj de) = .ok de := by
    refine optV_serializeOpt (dictV (prim pAny)) Value.obj de (fun a _ => ?_)
    show apV (.ok some) (dictV (prim pAny) (.obj a)) = .ok (some a)
    simp [dictV, dictElemsV_pAny a]
  simp [validateApiError, serializeApiError, fieldV, fieldD, lookupField, h1]

/-- Validator for the source's own `ValidationError` record (lines 343-346),
which this development's `ValidationError` structure mirrors exactly. -/
def validateValidationError : Value → VResult ValidationError
  | .obj fs =>
    apV (apV (apV (.ok ValidationError.mk)
      (fieldV fs "field" (prim pStr)))
      (fieldV fs "message" (prim pStr)))
      (fieldD fs "value" none (optV (prim pAny)))
  | v => .error [⟨"", "Input should be a valid dictionary", some v⟩]

def serializeValidationError (m : ValidationError) : Value :=
  .obj [("field", .str m.field), ("message", .str m.message),
        ("value", serializeOpt (fun v => v) m.value)]

/-- What validation guarantees for a `ValidationError` record: a present
`Any` payload is never the JSON null. -/
def ValidationError.valid (m : ValidationError) : Prop :=
  OptValid (fun v => Value.isNull v = false) m.value

instance (m : ValidationError) : Decidable m.valid := by
  unfold ValidationError.valid; infer_instance

lemma validateValidationError_serialize (m : ValidationError) (hv : m.valid) :
    validateValidationError (serializeValidationError m) = .ok m := by
  obtain ⟨f, ms, va⟩ := m
  simp only [ValidationError.valid] at hv
  have h1 : optV (prim pAny) (serializeOpt (fun v => v) va) = .ok va := by
    refine optV_serializeOpt (prim pAny) (fun v => v) va (fun a ha => ?_)
    have hn := OptValid_some hv ha
    cases a <;> simp_all [Value.isNull] <;> rfl
  simp [validateValidationError, serializeValidationError, fieldV, fieldD, lookupField, h1]

/-- `IngestionResult` (source lines 350-354). -/
structure IngestionResult where
  documents_processed : ℤ
  documents_failed : ℤ
  total_chunks : ℤ
  processing_time : ℚ
deriving Repr, DecidableEq

def validateIngestionResult : Value → VResult IngestionResult
  | .obj fs =>
    apV (apV (apV (apV (.ok IngestionResult.mk)
      (fieldV fs "documents_processed" (prim pInt)))
      (fieldV fs "documents_failed" (prim pInt)))
      (fieldV fs "total_chunks" (prim pInt)))
      (fieldV fs "processing_time" (prim pFloat))
  | v => .error [⟨"", "Input should be a valid dictionary", some v⟩]

def serializeIngestionResult (m : IngestionResult) : Value :=
  .obj [("documents_processed", encInt m.documents_processed),
        ("documents_failed", encInt m.documents_failed),
        ("total_chunks", encInt m.total_chunks),
        ("processing_time", .num m.processing_time)]

lemma validateIngestionResult_serialize (m : IngestionResult) :
    validateIngestionResult (serializeIngestionResult m) = .ok m := rfl


/-! ### Serializers and round-trips for the records embedded earlier -/

def serializeExpertiseLevel (m : ExpertiseLevel) : Value :=
  .obj [("overall_level", .str (DifficultyLevel.toStr m.overall_level)),
        ("domain_expertise", .obj (m.domain_expertise.map fun p => (p.1, Value.num p.2)))]

lemma validateExpertiseLevel_serialize (m : ExpertiseLevel) :
    validateExpertiseLevel (serializeExpertiseLevel m) = .ok m := by
  obtain ⟨ol, de⟩ := m
  have h1 := dictV_serialize (prim pFloat) Value.num de (fun p _ => rfl)
  simp [validateExpertiseLevel, serializeExpertiseLevel, fieldV, fieldD, lookupField, h1]

def serializeDocumentMetadata (m : DocumentMetadata) : Value :=
  .obj [("author", .str m.author), ("created_date", encDateTime m.created_date),
        ("last_updated", encDateTime m.last_updated), ("version", .str m.version),
        ("language", serializeOpt Value.str m.language),
        ("framework", serializeOpt Value.str m.framework)]

/-- What validation guarantees for a `DocumentMetadata`. -/
def DocumentMetadata.valid (m : DocumentMetadata) : Prop :=
  m.created_date.wf ∧ m.last_updated.wf

instance (m : DocumentMetadata) : Decidable m.valid := by
  unfold DocumentMetadata.valid; infer_instance

lemma validateDocumentMetadata_serialize (m : DocumentMetadata) (hv : m.valid) :
    validateDocumentMetadata (serializeDocumentMetadata m) = .ok m := by
  obtain ⟨au, cd, lu, ve, lg, fw⟩ := m
  simp only [DocumentMetadata.valid] at hv
  have h1 := prim_pDateTime_encDateTime cd hv.1
  have h2 := prim_pDateTime_encDateTime lu hv.2
  have h3 := optV_serializeOpt (prim pStr) Value.str lg (fun a _ => rfl)
  have h4 := optV_serializeOpt (prim pStr) Value.str fw (fun a _ => rfl)
  simp [validateDocumentMetadata, serializeDocumentMetadata, fieldV, fieldD,
    lookupField, h1, h2, h3, h4]

def serializeSkillImprovement (m : SkillImprovement) : Value :=
  .obj [("topic", .str m.topic), ("previous_level", .num m.previous_level),
        ("current_level", .num m.current_level),
        ("improvement_date", encDateTime m.improvement_date)]

/-- What validation guarantees for a `SkillImprovement`. -/
def SkillImprovement.valid (m : SkillImprovement) : Prop := m.improvement_date.wf

instance (m : SkillImprovement) : Decidable m.valid := by
  unfold SkillImprovement.valid; infer_instance

lemma validateSkillImprovement_serialize (m : SkillImprovement) (hv : m.valid) :
    validateSkillImprovement (serializeSkillImprovement m) = .ok m := by
  obtain ⟨t, pl, cl, idt⟩ := m
  have h1 := prim_pDateTime_encDateTime idt hv
  simp [validateSkillImprovement, serializeSkillImprovement, fieldV, fieldD,
    lookupField, h1]

def serializeMilestone (m : Milestone) : Value :=
  .obj [("id", .str m.id), ("title", .str m.title),
        ("description", .str m.description),
        ("required_skills", .arr (m.required_skills.map Value.str)),
        ("completion_criteria", .arr (m.completion_criteria.map Value.str)),
        ("estimated_time", encInt m.estimated_time)]

lemma validateMilestone_serialize (m : Milestone) :
    validateMilestone (serializeMilestone m) = .ok m := by
  obtain ⟨i, t, d, rs, cc, et⟩ := m
  have h1 := listV_serialize (prim pStr) Value.str rs (fun x _ => rfl)
  have h2 := listV_serialize (prim pStr) Value.str cc (fun x _ => rfl)
  simp [validateMilestone, serializeMilestone, fieldV, fieldD, lookupField, h1, h2]

def serializeLearningResource (m : LearningResource) : Value :=
  .obj [("id", .str m.id), ("title", .str m.title), ("type", .str m.type),
        ("url", serializeOpt Value.str m.url),
        ("content", serializeOpt Value.str m.content),
        ("difficulty_level", .str (DifficultyLevel.toStr m.difficulty_level)),
        ("estimated_time", encInt m.estimated_time)]

lemma validateLearningResource_serialize (m : LearningResource) :
    validateLearningResource (serializeLearningResource m) = .ok m := by
  obtain ⟨i, t, ty, u, c, dl, et⟩ := m
  have h1 := optV_serializeOpt (prim pStr) Value.str u (fun a _ => rfl)
  have h2 := optV_serializeOpt (prim pStr) Value.str c (fun a _ => rfl)
  simp [validateLearningResource, serializeLearningResource, fieldV, fieldD,
    lookupField, h1, h2]

def serializeConversationMessage (m : ConversationMessage) : Value :=
  .obj [("role", .str m.role), ("content", .str m.content),
        ("timestamp", encDateTime m.timestamp),
        ("metadata", serializeOpt Value.obj m.metadata)]

/-- What validation guarantees for a `ConversationMessage`. -/
def ConversationMessage.valid (m : ConversationMessage) : Prop := m.timestamp.wf

instance (m : ConversationMessage) : Decidable m.valid := by
  unfold ConversationMessage.valid; infer_instance

lemma validateConversationMessage_serialize (m : ConversationMessage) (hv : m.valid) :
    validateConversationMessage (serializeConversationMessage m) = .ok m := by
  obtain ⟨r, c, ts, md⟩ := m
  have h1 := prim_pDateTime_encDateTime ts hv
  have h2 : optV (dictV (prim pAny)) (serializeOpt Value.obj md) = .ok md := by
    refine optV_serializeOpt (dictV (prim pAny)) Value.obj md (fun a _ => ?_)
    show apV (.ok some) (dictV (prim pAny) (.obj a)) = .ok (some a)
    simp [dictV, dictElemsV_pAny a]
  simp [validateConversationMessage, serializeConversationMessage, fieldV, fieldD,
    lookupField, h1, h2]

def serializePaginatedResponse (m : PaginatedResponse) : Value :=
  .obj [("data", .arr m.data), ("total", encInt m.total), ("page", encInt m.page),
        ("limit", encInt m.limit), ("has_next", .bool m.has_next),
        ("has_prev", .bool m.has_prev)]

lemma validatePaginatedResponse_serialize (m : PaginatedResponse) :
    validatePaginatedResponse (serializePaginatedResponse m) = .ok m := by
  obtain ⟨da, tot, pa, li, hn, hp⟩ := m
  have h1 : listV (prim pAny) (.arr da) = .ok da := by simp [listV, elemsV_pAny]
  simp [validatePaginatedResponse, serializePaginatedResponse, fieldV, fieldD,
    lookupField, h1]

def serializeSearchResult (m : SearchResult) : Value :=
  .obj [("document_id", .str m.document_id), ("title", .str m.title),
        ("content_snippet", .str m.content_snippet),
        ("relevance_score", .num m.relevance_score),
        ("metadata", serializeDocumentMetadata m.metadata)]

/-- What validation guarantees for a `SearchResult`. -/
def SearchResult.valid (m : SearchResult) : Prop :=
  0 ≤ m.relevance_score ∧ m.relevance_score ≤ 1 ∧ m.metadata.valid

instance (m : SearchResult) : Decidable m.valid := by
  unfold SearchResult.valid; infer_instance

lemma validateSearchResult_serialize (m : SearchResult) (hv : m.valid) :
    validateSearchResult (serializeSearchResult m) = .ok m := by
  obtain ⟨di, t, cs, rs, md⟩ := m
  simp only [SearchResult.valid] at hv
  have h1 := prim_pFloatRange 0 1 rs hv.1 hv.2.1
  have h2 := validateDocumentMetadata_serialize md hv.2.2
  simp [validateSearchResult, serializeSearchResult, fieldV, fieldD, lookupField, h1, h2]

def serializeProgressMetrics (m : ProgressMetrics) : Value :=
  .obj [("topics_covered", .arr (m.topics_covered.map Value.str)),
        ("time_spent", encInt m.time_spent),
        ("concepts_learned", encInt m.concepts_learned),
        ("questions_asked", encInt m.questions_asked),
        ("feedback_given", encInt m.feedback_given),
        ("skill_improvements", .arr (m.skill_improvements.map serializeSkillImprovement))]

/-- What validation guarantees for a `ProgressMetrics`. -/
def ProgressMetrics.valid (m : ProgressMetrics) : Prop :=
  ∀ si ∈ m.skill_improvements, si.valid

instance (m : ProgressMetrics) : Decidable m.valid := by
  unfold ProgressMetrics.valid; infer_instance

lemma validateProgressMetrics_serialize (m : ProgressMetrics) (hv : m.valid) :
    validateProgressMetrics (serializeProgressMetrics m) = .ok m := by
  obtain ⟨tc, ts, cl, qa, fg, si⟩ := m
  have h1 := listV_serialize (prim pStr) Value.str tc (fun x _ => rfl)
  have h2 := listV_serialize validateSkillImprovement serializeSkillImprovement si
    (fun x hx => validateSkillImprovement_serialize x (hv x hx))
  simp [validateProgressMetrics, serializeProgressMetrics, fieldV, fieldD,
    lookupField, h1, h2]

def serializeSkillAssessment (m : SkillAssessment) : Value :=
  .obj [("user_id", .str m.user_id),
        ("assessed_skills", .obj (m.assessed_skills.map fun p => (p.1, serializeSkillLevel p.2))),
        ("confidence_score", .num m.confidence_score),
        ("assessment_date", encDateTime m.assessment_date),
        ("assessment_method", .str m.assessment_method)]

/-- What validation guarantees for a `SkillAssessment`. -/
def SkillAssessment.valid (m : SkillAssessment) : Prop :=
  (∀ p ∈ m.assessed_skills, SkillLevel.valid p.2) ∧
    0 ≤ m.confidence_score ∧ m.confidence_score ≤ 1 ∧ m.assessment_date.wf

instance (m : SkillAssessment) : Decidable m.valid := by
  unfold SkillAssessment.valid; infer_instance

lemma validateSkillAssessment_serialize (m : SkillAssessment) (hv : m.valid) :
    validateSkillAssessment (serializeSkillAssessment m) = .ok m := by
  obtain ⟨ui, asks, cs, ad, am⟩ := m
  simp only [SkillAssessment.valid] at hv
  have h1 := dictV_serialize validateSkillLevel serializeSkillLevel asks
    (fun p hp => validateSkillLevel_serialize p.2 (hv.1 p hp))
  have h2 := prim_pFloatRange 0 1 cs hv.2.1 hv.2.2.1
  have h3 := prim_pDateTime_encDateTime ad hv.2.2.2
  simp [validateSkillAssessment, serializeSkillAssessment, fieldV, fieldD,
    lookupField, h1, h2, h3]

def serializeGenerationContext (m : GenerationContext) : Value :=
  .obj [("query", .str m.query),
        ("retrieved_documents", .arr (m.retrieved_documents.map serializeSearchResult)),
        ("context_text", .str m.context_text),
        ("relevance_threshold", .num m.relevance_threshold)]

/-- What validation guarantees for a `GenerationContext`. -/
def GenerationContext.valid (m : GenerationContext) : Prop :=
  ∀ d ∈ m.retrieved_documents, d.valid

instance (m : GenerationContext) : Decidable m.valid := by
  unfold GenerationContext.valid; infer_instance

lemma validateGenerationContext_serialize (m : GenerationContext) (hv : m.valid) :
    validateGenerationContext (serializeGenerationContext m) = .ok m := by
  obtain ⟨q, rd, ct, rt⟩ := m
  have h1 := listV_serialize validateSearchResult serializeSearchResult rd
    (fun x hx => validateSearchResult_serialize x (hv x hx))
  simp [validateGenerationContext, serializeGenerationContext, fieldV, fieldD,
    lookupField, h1]

def serializeLearningInteraction (m : LearningInteraction) : Value :=
  .obj [("id", .str m.id), ("user_id", .str m.user_id),
        ("type", .str (InteractionType.toStr m.type)), ("query", .str m.query),
        ("response", .str m.response),
        ("context_used", .arr (m.context_used.map Value.str)),
        ("feedback", serializeOpt serializeUserFeedback m.feedback),
        ("timestamp", encDateTime m.timestamp),
        ("processing_time", .num m.processing_time)]

/-- What validation guarantees for a `LearningInteraction`. -/
def LearningInteraction.valid (m : LearningInteraction) : Prop :=
  OptValid UserFeedback.valid m.feedback ∧ m.timestamp.wf

instance (m : LearningInteraction) : Decidable m.valid := by
  unfold LearningInteraction.valid; infer_instance

lemma validateLearningInteraction_serialize (m : LearningInteraction) (hv : m.valid) :
    validateLearningInteraction (serializeLearningInteraction m) = .ok m := by
  obtain ⟨i, ui, ty, q, re, cu, fb, ts, pt⟩ := m
  simp only [LearningInteraction.valid] at hv
  have h1 := listV_serialize (prim pStr) Value.str cu (fun x _ => rfl)
  have h2 : optV validateUserFeedback (serializeOpt serializeUserFeedback fb) = .ok fb := by
    refine optV_serializeOpt validateUserFeedback serializeUserFeedback fb (fun a ha => ?_)
    show apV (.ok some) (validateUserFeedback (serializeUserFeedback a)) = .ok (some a)
    rw [validateUserFeedback_serialize a (OptValid_some hv.1 ha)]
    rfl
  have h3 := prim_pDateTime_encDateTime ts hv.2
  simp [validateLearningInteraction, serializeLearningInteraction, fieldV, fieldD,
    lookupField, h1, h2, h3]


/-- Wire encoding of a `DifficultyLevel` list element. -/
def encDifficultyLevel (l : DifficultyLevel) : Value := .str (DifficultyLevel.toStr l)

/-- Wire encoding of a `DocumentType` list element. -/
def encDocumentType (l : DocumentType) : Value := .str (DocumentType.toStr l)

@[simp] lemma prim_pEnum_encDifficultyLevel (l : DifficultyLevel) :
    prim (pEnum DifficultyLevel.ofStr) (encDifficultyLevel l) = .ok l := by
  cases l <;> rfl

@[simp] lemma prim_pEnum_encDocumentType (l : DocumentType) :
    prim (pEnum DocumentType.ofStr) (encDocumentType l) = .ok l := by
  cases l <;> rfl

/-- `UserPreferences` (source lines 61-65). -/
structure UserPreferences where
  explanation_style : ExplanationStyle
  preferred_languages : List String
  learning_goals : List String
  notification_settings : NotificationSettings
deriving Repr, DecidableEq

def validateUserPreferences : Value → VResult UserPreferences
  | .obj fs =>
    apV (apV (apV (apV (.ok UserPreferences.mk)
      (fieldD fs "explanation_style" ExplanationStyle.detailed
        (prim (pEnum ExplanationStyle.ofStr))))
      (fieldD fs "preferred_languages" [] (listV (prim pStr))))
      (fieldD fs "learning_goals" [] (listV (prim pStr))))
      (fieldD fs "notification_settings" ⟨true, true, true, true⟩
        validateNotificationSettings)
  | v => .error [⟨"", "Input should be a valid dictionary", some v⟩]

def serializeUserPreferences (m : UserPreferences) : Value :=
  .obj [("explanation_style", .str (ExplanationStyle.toStr m.explanation_style)),
        ("preferred_languages", .arr (m.preferred_languages.map Value.str)),
        ("learning_goals", .arr (m.learning_goals.map Value.str)),
        ("notification_settings", serializeNotificationSettings m.notification_settings)]

lemma validateUserPreferences_serialize (m : UserPreferences) :
    validateUserPreferences (serializeUserPreferences m) = .ok m := by
  obtain ⟨es, pl, lg, ns⟩ := m
  have h1 := listV_serialize (prim pStr) Value.str pl (fun x _ => rfl)
  have h2 := listV_serialize (prim pStr) Value.str lg (fun x _ => rfl)
  have h3 := validateNotificationSettings_serialize ns
  simp [validateUserPreferences, serializeUserPreferences, fieldV, fieldD,
    lookupField, h1, h2, h3]

/-- `SessionContext` (source lines 230-233). -/
structure SessionContext where
  current_topic : Option String
  conversation_history : List ConversationMessage
  active_learning_goals : List String

def validateSessionContext : Value → VResult SessionContext
  | .obj fs =>
    apV (apV (apV (.ok SessionContext.mk)
      (fieldD fs "current_topic" none (optV (prim pStr))))
      (fieldD fs "conversation_history" [] (listV validateConversationMessage)))
      (fieldD fs "active_learning_goals" [] (listV (prim pStr)))
  | v => .error [⟨"", "Input should be a valid dictionary", some v⟩]

def serializeSessionContext (m : SessionContext) : Value :=
  .obj [("current_topic", serializeOpt Value.str m.current_topic),
        ("conversation_history", .arr (m.conversation_history.map serializeConversationMessage)),
        ("active_learning_goals", .arr (m.active_learning_goals.map Value.str))]

/-- What validation guarantees for a `SessionContext`. -/
def SessionContext.valid (m : SessionContext) : Prop :=
  ∀ c ∈ m.conversation_history, c.valid

instance (m : SessionContext) : Decidable m.valid := by
  unfold SessionContext.valid; infer_instance

lemma validateSessionContext_serialize (m : SessionContext) (hv : m.valid) :
    validateSessionContext (serializeSessionContext m) = .ok m := by
  obtain ⟨ct, ch, alg⟩ := m
  have h1 := optV_serializeOpt (prim pStr) Value.str ct (fun a _ => rfl)
  have h2 := listV_serialize validateConversationMessage serializeConversationMessage ch
    (fun x hx => validateConversationMessage_serialize x (hv x hx))
  have h3 := listV_serialize (prim pStr) Value.str alg (fun x _ => rfl)
  simp [validateSessionContext, serializeSessionContext, fieldV, fieldD,
    lookupField, h1, h2, h3]

/-- `ConceptExplanation` (source lines 138-147). -/
structure ConceptExplanation where
  id : String
  concept : String
  content : String
  difficulty_level : DifficultyLevel
  examples : List Example
  analogies : List Analogy
  step_by_step : List StepByStep
  related_concepts : List String
  sources : List String
deriving Repr, DecidableEq

def validateConceptExplanation : Value → VResult ConceptExplanation
  | .obj fs =>
    apV (apV (apV (apV (apV (apV (apV (apV (apV (.ok ConceptExplanation.mk)
      (fieldV fs "id" (prim pStr)))
      (fieldV fs "concept" (prim pStr)))
      (fieldV fs "content" (prim pStr)))
      (fieldV fs "difficulty_level" (prim (pEnum DifficultyLevel.ofStr))))
      (fieldD fs "examples" [] (listV validateExample)))
      (fieldD fs "analogies" [] (listV validateAnalogy)))
      (fieldD fs "step_by_step" [] (listV validateStepByStep)))
      (fieldD fs "related_concepts" [] (listV (prim pStr))))
      (fieldD fs "sources" [] (listV (prim pStr)))
  | v => .error [⟨"", "Input should be a valid dictionary", some v⟩]

def serializeConceptExplanation (m : ConceptExplanation) : Value :=
  .obj [("id", .str m.id), ("concept", .str m.concept), ("content", .str m.content),
        ("difficulty_level", .str (DifficultyLevel.toStr m.difficulty_level)),
        ("examples", .arr (m.examples.map serializeExample)),
        ("analogies", .arr (m.analogies.map serializeAnalogy)),
        ("step_by_step", .arr (m.step_by_step.map serializeStepByStep)),
        ("related_concepts", .arr (m.related_concepts.map Value.str)),
        ("sources", .arr (m.sources.map Value.str))]

lemma validateConceptExplanation_serialize (m : ConceptExplanation) :
    validateConceptExplanation (serializeConceptExplanation m) = .ok m := by
  obtain ⟨i, co, cn, dl, ex, an, sb, rc, so⟩ := m
  have h1 := listV_serialize validateExample serializeExample ex
    (fun x _ => validateExample_serialize x)
  have h2 := listV_serialize validateAnalogy serializeAnalogy an
    (fun x _ => validateAnalogy_serialize x)
  have h3 := listV_serialize validateStepByStep serializeStepByStep sb
    (fun x _ => validateStepByStep_serialize x)
  have h4 := listV_serialize (prim pStr) Value.str rc (fun x _ => rfl)
  have h5 := listV_serialize (prim pStr) Value.str so (fun x _ => rfl)
  simp [validateConceptExplanation, serializeConceptExplanation, fieldV, fieldD,
    lookupField, h1, h2, h3, h4, h5]

/-- `CodeExplanation` (source lines 165-173). -/
structure CodeExplanation where
  id : String
  code_snippet : String
  language : String
  line_explanations : List LineExplanation
  overall_summary : String
  best_practices : List String
  potential_issues : List Issue
  optimization_suggestions : List String
deriving Repr, DecidableEq

def validateCodeExplanation : Value → VResult CodeExplanation
  | .obj fs =>
    apV (apV (apV (apV (apV (apV (apV (apV (.ok CodeExplanation.mk)
      (fieldV fs "id" (prim pStr)))
      (fieldV fs "code_snippet" (prim pStr)))
      (fieldV fs "language" (prim pStr)))
      (fieldD fs "line_explanations" [] (listV validateLineExplanation)))
      (fieldV fs "overall_summary" (prim pStr)))
      (fieldD fs "best_practices" [] (listV (prim pStr))))
      (fieldD fs "potential_issues" [] (listV validateIssue)))
      (fieldD fs "optimization_suggestions" [] (listV (prim pStr)))
  | v => .error [⟨"", "Input should be a valid dictionary", some v⟩]

def serializeCodeExplanation (m : CodeExplanation) : Value :=
  .obj [("id", .str m.id), ("code_snippet", .str m.code_snippet),
        ("language", .str m.language),
        ("line_explanations", .arr (m.line_explanations.map serializeLineExplanation)),
        ("overall_summary", .str m.overall_summary),
        ("best_practices", .arr (m.best_practices.map Value.str)),
        ("potential_issues", .arr (m.potential_issues.map serializeIssue)),
        ("optimization_suggestions", .arr (m.optimization_suggestions.map Value.str))]

lemma validateCodeExplanation_serialize (m : CodeExplanation) :
    validateCodeExplanation (serializeCodeExplanation m) = .ok m := by
  obtain ⟨i, cs, la, le, os, bp, pi, op⟩ := m
  have h1 := listV_serialize validateLineExplanation serializeLineExplanation le
    (fun x _ => validateLineExplanation_serialize x)
  have h2 := listV_serialize (prim pStr) Value.str bp (fun x _ => rfl)
  have h3 := listV_serialize validateIssue serializeIssue pi
    (fun x _ => validateIssue_serialize x)
  have h4 := listV_serialize (prim pStr) Value.str op (fun x _ => rfl)
  simp [validateCodeExplanation, serializeCodeExplanation, fieldV, fieldD,
    lookupField, h1, h2, h3, h4]

/-- `DebuggingSuggestion` (source lines 182-187). -/
structure DebuggingSuggestion where
  issue_type : String
  description : String
  suggested_fixes : List Fix
  debugging_steps : List String
  related_resources : List String
deriving Repr, DecidableEq

def validateDebuggingSuggestion : Value → VResult DebuggingSuggestion
  | .obj fs =>
    apV (apV (apV (apV (apV (.ok DebuggingSuggestion.mk)
      (fieldV fs "issue_type" (prim pStr)))
      (fieldV fs "description" (prim pStr)))
      (fieldD fs "suggested_fixes" [] (listV validateFix)))
      (fieldD fs "debugging_steps" [] (listV (prim pStr))))
      (fieldD fs "related_resources" [] (listV (prim pStr)))
  | v => .error [⟨"", "Input should be a valid dictionary", some v⟩]

def serializeDebuggingSuggestion (m : DebuggingSuggestion) : Value :=
  .obj [("issue_type", .str m.issue_type), ("description", .str m.description),
        ("suggested_fixes", .arr (m.suggested_fixes.map serializeFix)),
        ("debugging_steps", .arr (m.debugging_steps.map Value.str)),
        ("related_resources", .arr (m.related_resources.map Value.str))]

lemma validateDebuggingSuggestion_serialize (m : DebuggingSuggestion) :
    validateDebuggingSuggestion (serializeDebuggingSuggestion m) = .ok m := by
  obtain ⟨it, de, sf, ds, rr⟩ := m
  have h1 := listV_serialize validateFix serializeFix sf
    (fun x _ => validateFix_serialize x)
  have h2 := listV_serialize (prim pStr) Value.str ds (fun x _ => rfl)
  have h3 := listV_serialize (prim pStr) Value.str rr (fun x _ => rfl)
  simp [validateDebuggingSuggestion, serializeDebuggingSuggestion, fieldV, fieldD,
    lookupField, h1, h2, h3]

/-- `KnowledgeDocument` (source lines 199-208). -/
structure KnowledgeDocument where
  id : String
  title : String
  content : String
  document_type : DocumentType
  topics : List String
  difficulty_level : DifficultyLevel
  source : String
  embedding_vector : List ℚ
  metadata : DocumentMetadata
deriving Repr, DecidableEq

def validateKnowledgeDocument : Value → VResult KnowledgeDocument
  | .obj fs =>
    apV (apV (apV (apV (apV (apV (apV (apV (apV (.ok KnowledgeDocument.mk)
      (fieldV fs "id" (prim pStr)))
      (fieldV fs "title" (prim pStr)))
      (fieldV fs "content" (prim pStr)))
      (fieldV fs "document_type" (prim (pEnum DocumentType.ofStr))))
      (fieldD fs "topics" [] (listV (prim pStr))))
      (fieldV fs "difficulty_level" (prim (pEnum DifficultyLevel.ofStr))))
      (fieldV fs "source" (prim pStr)))
      (fieldD fs "embedding_vector" [] (listV (prim pFloat))))
      (fieldV fs "metadata" validateDocumentMetadata)
  | v => .error [⟨"", "Input should be a valid dictionary", some v⟩]

def serializeKnowledgeDocument (m : KnowledgeDocument) : Value :=
  .obj [("id", .str m.id), ("title", .str m.title), ("content", .str m.content),
        ("document_type", .str (DocumentType.toStr m.document_type)),
        ("topics", .arr (m.topics.map Value.str)),
        ("difficulty_level", .str (DifficultyLevel.toStr m.difficulty_level)),
        ("source", .str m.source),
        ("embedding_vector", .arr (m.embedding_vector.map Value.num)),
        ("metadata", serializeDocumentMetadata m.metadata)]

/-- What validation guarantees for a `KnowledgeDocument`. -/
def KnowledgeDocument.valid (m : KnowledgeDocument) : Prop := m.metadata.valid

instance (m : KnowledgeDocument) : Decidable m.valid := by
  unfold KnowledgeDocument.valid; infer_instance

lemma validateKnowledgeDocument_serialize (m : KnowledgeDocument) (hv : m.valid) :
    validateKnowledgeDocument (serializeKnowledgeDocument m) = .ok m := by
  obtain ⟨i, t, c, dt, tp, dl, so, ev, md⟩ := m
  have h1 := listV_serialize (prim pStr) Value.str tp (fun x _ => rfl)
  have h2 := listV_serialize (prim pFloat) Value.num ev (fun x _ => rfl)
  have h3 := validateDocumentMetadata_serialize md hv
  simp [validateKnowledgeDocument, serializeKnowledgeDocument, fieldV, fieldD,
    lookupField, h1, h2, h3]

/-- `UserRegistration` (source lines 211-215). -/
structure UserRegistration where
  email : String
  username : String
  password : String
  preferences : Option UserPreferences
deriving Repr, DecidableEq

def validateUserRegistration : Value → VResult UserRegistration
  | .obj fs =>
    apV (apV (apV (apV (.ok UserRegistration.mk)
      (fieldV fs "email" (prim pStr)))
      (fieldV fs "username" (prim pStr)))
      (fieldV fs "password" (prim pStr)))
      (fieldD fs "preferences" none (optV validateUserPreferences))
  | v => .error [⟨"", "Input should be a valid dictionary", some v⟩]

def serializeUserRegistration (m : UserRegistration) : Value :=
  .obj [("email", .str m.email), ("username", .str m.username),
        ("password", .str m.password),
        ("preferences", serializeOpt serializeUserPreferences m.preferences)]

lemma validateUserRegistration_serialize (m : UserRegistration) :
    validateUserRegistration (serializeUserRegistration m) = .ok m := by
  obtain ⟨em, un, pw, pr⟩ := m
  have h1 : optV validateUserPreferences (serializeOpt serializeUserPreferences pr) =
      .ok pr := by
    refine optV_serializeOpt validateUserPreferences serializeUserPreferences pr
      (fun a _ => ?_)
    show apV (.ok some) (validateUserPreferences (serializeUserPreferences a)) =
      .ok (some a)
    rw [validateUserPreferences_serialize a]
    rfl
  simp [validateUserRegistration, serializeUserRegistration, fieldV, fieldD,
    lookupField, h1]

/-- `SearchFilters` (source lines 243-248). -/
structure SearchFilters where
  topics : Option (List String)
  difficulty_level : Option DifficultyLevel
  document_type : Option (List DocumentType)
  language : Option String
  date_range : Option (List (String × DateTime))
deriving Repr, DecidableEq

def validateSearchFilters : Value → VResult SearchFilters
  | .obj fs =>
    apV (apV (apV (apV (apV (.ok SearchFilters.mk)
      (fieldD fs "topics" none (optV (listV (prim pStr)))))
      (fieldD fs "difficulty_level" none (optV (prim (pEnum DifficultyLevel.ofStr)))))
      (fieldD fs "document_type" none (optV (listV (prim (pEnum DocumentType.ofStr))))))
      (fieldD fs "language" none (optV (prim pStr))))
      (fieldD fs "date_range" none (optV (dictV (prim pDateTime))))
  | v => .error [⟨"", "Input should be a valid dictionary", some v⟩]

/-- Wire encoding of a list of strings. -/
def encStrList (l : List String) : Value := .arr (l.map Value.str)

/-- Wire encoding of a list of `DocumentType` members. -/
def encDocTypeList (l : List DocumentType) : Value := .arr (l.map encDocumentType)

/-- Wire encoding of a string-to-datetime mapping. -/
def encDateTimeDict (l : List (String × DateTime)) : Value :=
  .obj (l.map fun p => (p.1, encDateTime p.2))

def serializeSearchFilters (m : SearchFilters) : Value :=
  .obj [("topics", serializeOpt encStrList m.topics),
        ("difficulty_level", serializeOpt encDifficultyLevel m.difficulty_level),
        ("document_type", serializeOpt encDocTypeList m.document_type),
        ("language", serializeOpt Value.str m.language),
        ("date_range", serializeOpt encDateTimeDict m.date_range)]

/-- What validation guarantees for a `SearchFilters`: every datetime in a
present `date_range` is well-formed. -/
def SearchFilters.valid (m : SearchFilters) : Prop :=
  OptValid (fun dr => ∀ p ∈ dr, DateTime.wf p.2) m.date_range

instance (m : SearchFilters) : Decidable m.valid := by
  unfold SearchFilters.valid; infer_instance

lemma validateSearchFilters_serialize (m : SearchFilters) (hv : m.valid) :
    validateSearchFilters (serializeSearchFilters m) = .ok m := by
  obtain ⟨tp, dl, dt, lg, dr⟩ := m
  simp only [SearchFilters.valid] at hv
  have h1 : optV (listV (prim pStr)) (serializeOpt encStrList tp) = .ok tp := by
    refine optV_serializeOpt (listV (prim pStr)) encStrList tp (fun a _ => ?_)
    show apV (.ok some) (listV (prim pStr) (.arr (a.map Value.str))) = .ok (some a)
    rw [listV_serialize (prim pStr) Value.str a (fun x _ => rfl)]
    rfl
  have h2 : optV (prim (pEnum DifficultyLevel.ofStr)) (serializeOpt encDifficultyLevel dl) =
      .ok dl := by
    refine optV_serializeOpt (prim (pEnum DifficultyLevel.ofStr)) encDifficultyLevel dl
      (fun a _ => ?_)
    cases a <;> rfl
  have h3 : optV (listV (prim (pEnum DocumentType.ofStr))) (serializeOpt encDocTypeList dt) =
      .ok dt := by
    refine optV_serializeOpt (listV (prim (pEnum DocumentType.ofStr))) encDocTypeList dt
      (fun a _ => ?_)
    show apV (.ok some) (listV (prim (pEnum DocumentType.ofStr)) (.arr (a.map encDocumentType))) =
      .ok (some a)
    rw [listV_serialize (prim (pEnum DocumentType.ofStr)) encDocumentType a
      (fun x _ => prim_pEnum_encDocumentType x)]
    rfl
  have h4 := optV_serializeOpt (prim pStr) Value.str lg (fun a _ => rfl)
  have h5 : optV (dictV (prim pDateTime)) (serializeOpt encDateTimeDict dr) = .ok dr := by
    refine optV_serializeOpt (dictV (prim pDateTime)) encDateTimeDict dr (fun a ha => ?_)
    show apV (.ok some) (dictV (prim pDateTime) (.obj (a.map fun p => (p.1, encDateTime p.2)))) =
      .ok (some a)
    rw [dictV_serialize (prim pDateTime) encDateTime a
      (fun p hp => prim_pDateTime_encDateTime p.2 (OptValid_some hv ha p hp))]
    rfl
  simp [validateSearchFilters, serializeSearchFilters, fieldV, fieldD, lookupField,
    h1, h2, h3, h4, h5]

/-- `LearningPath` (source lines 278-287). -/
structure LearningPath where
  id : String
  user_id : String
  title : String
  description : String
  target_skills : List String
  estimated_duration : ℤ
  difficulty_progression : List DifficultyLevel
  milestones : List Milestone
  resources : List LearningResource
deriving Repr, DecidableEq

def validateLearningPath : Value → VResult LearningPath
  | .obj fs =>
    apV (apV (apV (apV (apV (apV (apV (apV (apV (.ok LearningPath.mk)
      (fieldV fs "id" (prim pStr)))
      (fieldV fs "user_id" (prim pStr)))
      (fieldV fs "title" (prim pStr)))
      (fieldV fs "description" (prim pStr)))
      (fieldD fs "target_skills" [] (listV (prim pStr))))
      (fieldV fs "estimated_duration" (prim pInt)))
      (fieldD fs "difficulty_progression" []
        (listV (prim (pEnum DifficultyLevel.ofStr)))))
      (fieldD fs "milestones" [] (listV validateMilestone)))
      (fieldD fs "resources" [] (listV validateLearningResource))
  | v => .error [⟨"", "Input should be a valid dictionary", some v⟩]

def serializeLearningPath (m : LearningPath) : Value :=
  .obj [("id", .str m.id), ("user_id", .str m.user_id), ("title", .str m.title),
        ("description", .str m.description),
        ("target_skills", .arr (m.target_skills.map Value.str)),
        ("estimated_duration", encInt m.estimated_duration),
        ("difficulty_progression", .arr (m.difficulty_progression.map encDifficultyLevel)),
        ("milestones", .arr (m.milestones.map serializeMilestone)),
        ("resources", .arr (m.resources.map serializeLearningResource))]

lemma validateLearningPath_serialize (m : LearningPath) :
    validateLearningPath (serializeLearningPath m) = .ok m := by
  obtain ⟨i, ui, t, d, ts, ed, dp, ms, rs⟩ := m
  have h1 := listV_serialize (prim pStr) Value.str ts (fun x _ => rfl)
  have h2 := listV_serialize (prim (pEnum DifficultyLevel.ofStr)) encDifficultyLevel dp
    (fun x _ => prim_pEnum_encDifficultyLevel x)
  have h3 := listV_serialize validateMilestone serializeMilestone ms
    (fun x _ => validateMilestone_serialize x)
  have h4 := listV_serialize validateLearningResource serializeLearningResource rs
    (fun x _ => validateLearningResource_serialize x)
  simp [validateLearningPath, serializeLearningPath, fieldV, fieldD, lookupField,
    h1, h2, h3, h4]

/-- `AnalyticsData` (source lines 306-311). -/
structure AnalyticsData where
  user_id : String
  session_id : String
  event_type : String
  event_data : List (String × Value)
  timestamp : DateTime
deriving Repr

def validateAnalyticsData : Value → VResult AnalyticsData
  | .obj fs =>
    apV (apV (apV (apV (apV (.ok AnalyticsData.mk)
      (fieldV fs "user_id" (prim pStr)))
      (fieldV fs "session_id" (prim pStr)))
      (fieldV fs "event_type" (prim pStr)))
      (fieldD fs "event_data" [] (dictV (prim pAny))))
      (fieldV fs "timestamp" (prim pDateTime))
  | v => .error [⟨"", "Input should be a valid dictionary", some v⟩]

def serializeAnalyticsData (m : AnalyticsData) : Value :=
  .obj [("user_id", .str m.user_id), ("session_id", .str m.session_id),
        ("event_type", .str m.event_type), ("event_data", .obj m.event_data),
        ("timestamp", encDateTime m.timestamp)]

/-- What validation guarantees for an `AnalyticsData`. -/
def AnalyticsData.valid (m : AnalyticsData) : Prop := m.timestamp.wf

instance (m : AnalyticsData) : Decidable m.valid := by
  unfold AnalyticsData.valid; infer_instance

lemma validateAnalyticsData_serialize (m : AnalyticsData) (hv : m.valid) :
    validateAnalyticsData (serializeAnalyticsData m) = .ok m := by
  obtain ⟨ui, si, et, ed, ts⟩ := m
  have h1 : dictV (prim pAny) (.obj ed) = .ok ed := by simp [dictV, dictElemsV_pAny]
  have h2 := prim_pDateTime_encDateTime ts hv
  simp [validateAnalyticsData, serializeAnalyticsData, fieldV, fieldD, lookupField,
    h1, h2]


/-- `PersonalizedResponse` (source lines 373-377): `confidence_score`
carries `Field(ge=0.0, le=1.0)`. -/
structure PersonalizedResponse where
  original_response : String
  personalized_content : String
  adaptation_factors : List String
  confidence_score : ℚ
deriving Repr, DecidableEq

def validatePersonalizedResponse : Value → VResult PersonalizedResponse
  | .obj fs =>
    apV (apV (apV (apV (.ok PersonalizedResponse.mk)
      (fieldV fs "original_response" (prim pStr)))
      (fieldV fs "personalized_content" (prim pStr)))
      (fieldV fs "adaptation_factors" (listV (prim pStr))))
      (fieldV fs "confidence_score" (prim (pFloatRange 0 1)))
  | v => .error [⟨"", "Input should be a valid dictionary", some v⟩]

def serializePersonalizedResponse (m : PersonalizedResponse) : Value :=
  .obj [("original_response", .str m.original_response),
        ("personalized_content", .str m.personalized_content),
        ("adaptation_factors", .arr (m.adaptation_factors.map Value.str)),
        ("confidence_score", .num m.confidence_score)]

/-- What validation guarantees for a `PersonalizedResponse`. -/
def PersonalizedResponse.valid (m : PersonalizedResponse) : Prop :=
  0 ≤ m.confidence_score ∧ m.confidence_score ≤ 1

instance (m : PersonalizedResponse) : Decidable m.valid := by
  unfold PersonalizedResponse.valid; infer_instance

lemma validatePersonalizedResponse_serialize (m : PersonalizedResponse) (hv : m.valid) :
    validatePersonalizedResponse (serializePersonalizedResponse m) = .ok m := by
  obtain ⟨og, pc, af, cs⟩ := m
  have h1 := listV_serialize (prim pStr) Value.str af (fun x _ => rfl)
  have h2 := prim_pFloatRange 0 1 cs hv.1 hv.2
  simp [validatePersonalizedResponse, serializePersonalizedResponse, fieldV, fieldD,
    lookupField, h1, h2]

/-- `WorkflowOptimization` (source lines 380-385): `difficulty_reduction`
carries `Field(ge=0.0, le=1.0)`. -/
structure WorkflowOptimization where
  current_workflow : String
  optimized_workflow : String
  improvements : List String
  estimated_time_savings : ℤ
  difficulty_reduction : ℚ
deriving Repr, DecidableEq

def validateWorkflowOptimization : Value → VResult WorkflowOptimization
  | .obj fs =>
    apV (apV (apV (apV (apV (.ok WorkflowOptimization.mk)
      (fieldV fs "current_workflow" (prim pStr)))
      (fieldV fs "optimized_workflow" (prim pStr)))
      (fieldV fs "improvements" (listV (prim pStr))))
      (fieldV fs "estimated_time_savings" (prim pInt)))
      (fieldV fs "difficulty_reduction" (prim (pFloatRange 0 1)))
  | v => .error [⟨"", "Input should be a valid dictionary", some v⟩]

def serializeWorkflowOptimization (m : WorkflowOptimization) : Value :=
  .obj [("current_workflow", .str m.current_workflow),
        ("optimized_workflow", .str m.optimized_workflow),
        ("improvements", .arr (m.improvements.map Value.str)),
        ("estimated_time_savings", encInt m.estimated_time_savings),
        ("difficulty_reduction", .num m.difficulty_reduction)]

/-- What validation guarantees for a `WorkflowOptimization`. -/
def WorkflowOptimization.valid (m : WorkflowOptimization) : Prop :=
  0 ≤ m.difficulty_reduction ∧ m.difficulty_reduction ≤ 1

instance (m : WorkflowOptimization) : Decidable m.valid := by
  unfold WorkflowOptimization.valid; infer_instance

lemma validateWorkflowOptimization_serialize (m : WorkflowOptimization)
    (hv : m.valid) :
    validateWorkflowOptimization (serializeWorkflowOptimization m) = .ok m := by
  obtain ⟨cw, ow, im, ets, dr⟩ := m
  have h1 := listV_serialize (prim pStr) Value.str im (fun x _ => rfl)
  have h2 := prim_pFloatRange 0 1 dr hv.1 hv.2
  simp [validateWorkflowOptimization, serializeWorkflowOptimization, fieldV, fieldD,
    lookupField, h1, h2]

/-- `LearningContext` (source lines 100-104). -/
structure LearningContext where
  skill_levels : List (String × SkillLevel)
  learning_history : List LearningInteraction
  current_focus_areas : List String
  estimated_expertise : Option ExpertiseLevel
deriving Repr, DecidableEq

def validateLearningContext : Value → VResult LearningContext
  | .obj fs =>
    apV (apV (apV (apV (.ok LearningContext.mk)
      (fieldD fs "skill_levels" [] (dictV validateSkillLevel)))
      (fieldD fs "learning_history" [] (listV validateLearningInteraction)))
      (fieldD fs "current_focus_areas" [] (listV (prim pStr))))
      (fieldD fs "estimated_expertise" none (optV validateExpertiseLevel))
  | v => .error [⟨"", "Input should be a valid dictionary", some v⟩]

def serializeLearningContext (m : LearningContext) : Value :=
  .obj [("skill_levels", .obj (m.skill_levels.map fun p => (p.1, serializeSkillLevel p.2))),
        ("learning_history", .arr (m.learning_history.map serializeLearningInteraction)),
        ("current_focus_areas", .arr (m.current_focus_areas.map Value.str)),
        ("estimated_expertise", serializeOpt serializeExpertiseLevel m.estimated_expertise)]

/-- What validation guarantees for a `LearningContext`. -/
def LearningContext.valid (m : LearningContext) : Prop :=
  (∀ p ∈ m.skill_levels, SkillLevel.valid p.2) ∧
    ∀ i ∈ m.learning_history, i.valid

instance (m : LearningContext) : Decidable m.valid := by
  unfold LearningContext.valid; infer_instance

lemma validateLearningContext_serialize (m : LearningContext) (hv : m.valid) :
    validateLearningContext (serializeLearningContext m) = .ok m := by
  obtain ⟨sl, lh, cf, ee⟩ := m
  simp only [LearningContext.valid] at hv
  have h1 := dictV_serialize validateSkillLevel serializeSkillLevel sl
    (fun p hp => validateSkillLevel_serialize p.2 (hv.1 p hp))
  have h2 := listV_serialize validateLearningInteraction serializeLearningInteraction lh
    (fun x hx => validateLearningInteraction_serialize x (hv.2 x hx))
  have h3 := listV_serialize (prim pStr) Value.str cf (fun x _ => rfl)
  have h4 : optV validateExpertiseLevel (serializeOpt serializeExpertiseLevel ee) =
      .ok ee := by
    refine optV_serializeOpt validateExpertiseLevel serializeExpertiseLevel ee
      (fun a _ => ?_)
    show apV (.ok some) (validateExpertiseLevel (serializeExpertiseLevel a)) = .ok (some a)
    rw [validateExpertiseLevel_serialize a]
    rfl
  simp [validateLearningContext, serializeLearningContext, fieldV, fieldD,
    lookupField, h1, h2, h3, h4]

/-- `User` (source lines 107-114). -/
structure User where
  id : String
  email : String
  username : String
  created_at : DateTime
  updated_at : DateTime
  preferences : UserPreferences
  learning_context : LearningContext
deriving Repr, DecidableEq

def validateUser : Value → VResult User
  | .obj fs =>
    apV (apV (apV (apV (apV (apV (apV (.ok User.mk)
      (fieldV fs "id" (prim pStr)))
      (fieldV fs "email" (prim pStr)))
      (fieldV fs "username" (prim pStr)))
      (fieldV fs "created_at" (prim pDateTime)))
      (fieldV fs "updated_at" (prim pDateTime)))
      (fieldD fs "preferences" ⟨.detailed, [], [], ⟨true, true, true, true⟩⟩
        validateUserPreferences))
      (fieldD fs "learning_context" ⟨[], [], [], none⟩ validateLearningContext)
  | v => .error [⟨"", "Input should be a valid dictionary", some v⟩]

def serializeUser (m : User) : Value :=
  .obj [("id", .str m.id), ("email", .str m.email), ("username", .str m.username),
        ("created_at", encDateTime m.created_at),
        ("updated_at", encDateTime m.updated_at),
        ("preferences", serializeUserPreferences m.preferences),
        ("learning_context", serializeLearningContext m.learning_context)]

/-- What validation guarantees for a `User`. -/
def User.valid (m : User) : Prop :=
  m.created_at.wf ∧ m.updated_at.wf ∧ m.learning_context.valid

instance (m : User) : Decidable m.valid := by
  unfold User.valid; infer_instance

lemma validateUser_serialize (m : User) (hv : m.valid) :
    validateUser (serializeUser m) = .ok m := by
  obtain ⟨i, em, un, ca, ua, pr, lc⟩ := m
  simp only [User.valid] at hv
  have h1 := prim_pDateTime_encDateTime ca hv.1
  have h2 := prim_pDateTime_encDateTime ua hv.2.1
  have h3 := validateUserPreferences_serialize pr
  have h4 := validateLearningContext_serialize lc hv.2.2
  simp [validateUser, serializeUser, fieldV, fieldD, lookupField, h1, h2, h3, h4]

/-- `UserContext` (source lines 236-240). -/
structure UserContext where
  user_id : String
  skill_level : SkillLevel
  preferences : UserPreferences
  session_context : SessionContext

def validateUserContext : Value → VResult UserContext
  | .obj fs =>
    apV (apV (apV (apV (.ok UserContext.mk)
      (fieldV fs "user_id" (prim pStr)))
      (fieldV fs "skill_level" validateSkillLevel))
      (fieldV fs "preferences" validateUserPreferences))
      (fieldD fs "session_context" ⟨none, [], []⟩ validateSessionContext)
  | v => .error [⟨"", "Input should be a valid dictionary", some v⟩]

def serializeUserContext (m : UserContext) : Value :=
  .obj [("user_id", .str m.user_id),
        ("skill_level", serializeSkillLevel m.skill_level),
        ("preferences", serializeUserPreferences m.preferences),
        ("session_context", serializeSessionContext m.session_context)]

/-- What validation guarantees for a `UserContext`. -/
def UserContext.valid (m : UserContext) : Prop :=
  m.skill_level.valid ∧ m.session_context.valid

instance (m : UserContext) : Decidable m.valid := by
  unfold UserContext.valid; infer_instance

lemma validateUserContext_serialize (m : UserContext) (hv : m.valid) :
    validateUserContext (serializeUserContext m) = .ok m := by
  obtain ⟨ui, sl, pr, sc⟩ := m
  simp only [UserContext.valid] at hv
  have h1 := validateSkillLevel_serialize sl hv.1
  have h2 := validateUserPreferences_serialize pr
  have h3 := validateSessionContext_serialize sc hv.2
  simp [validateUserContext, serializeUserContext, fieldV, fieldD, lookupField,
    h1, h2, h3]

/-- `AuthResponse` (source lines 314-318). -/
structure AuthResponse where
  user : User
  access_token : String
  refresh_token : String
  expires_in : ℤ
deriving Repr, DecidableEq

def validateAuthResponse : Value → VResult AuthResponse
  | .obj fs =>
    apV (apV (apV (apV (.ok AuthResponse.mk)
      (fieldV fs "user" validateUser))
      (fieldV fs "access_token" (prim pStr)))
      (fieldV fs "refresh_token" (prim pStr)))
      (fieldV fs "expires_in" (prim pInt))
  | v => .error [⟨"", "Input should be a valid dictionary", some v⟩]

def serializeAuthResponse (m : AuthResponse) : Value :=
  .obj [("user", serializeUser m.user), ("access_token", .str m.access_token),
        ("refresh_token", .str m.refresh_token), ("expires_in", encInt m.expires_in)]

/-- What validation guarantees for an `AuthResponse`. -/
def AuthResponse.valid (m : AuthResponse) : Prop := m.user.valid

instance (m : AuthResponse) : Decidable m.valid := by
  unfold AuthResponse.valid; infer_instance

lemma validateAuthResponse_serialize (m : AuthResponse) (hv : m.valid) :
    validateAuthResponse (serializeAuthResponse m) = .ok m := by
  obtain ⟨u, at2, rt, ei⟩ := m
  have h1 := validateUser_serialize u hv
  simp [validateAuthResponse, serializeAuthResponse, fieldV, fieldD, lookupField, h1]


/-! ### C6: round-trip for every record type -/

/-- C6: round-trip with no information loss, for every record type of the
source module: serializing a validated instance and validating the result
again yields an equal instance. One conjunct per record class, in source
order; the conjuncts whose schema constrains fields (ranges, datetimes,
nested records) take exactly the constraints validation itself guarantees
as hypothesis. The final conjuncts check the concrete scenario: the
`SkillLevel` built from topic "recursion", level "advanced", confidence
0.85, last_assessed "2024-01-01T00:00:00Z" validates successfully and its
serialization is exactly that wire input again. -/
theorem all_record_types_roundtrip :
    (∀ m : NotificationSettings, validateNotificationSettings (serializeNotificationSettings m) = .ok m) ∧
    (∀ m : UserPreferences, validateUserPreferences (serializeUserPreferences m) = .ok m) ∧
    (∀ m : SkillLevel, m.valid → validateSkillLevel (serializeSkillLevel m) = .ok m) ∧
    (∀ m : ExpertiseLevel, validateExpertiseLevel (serializeExpertiseLevel m) = .ok m) ∧
    (∀ m : UserFeedback, m.valid → validateUserFeedback (serializeUserFeedback m) = .ok m) ∧
    (∀ m : LearningInteraction, m.valid → validateLearningInteraction (serializeLearningInteraction m) = .ok m) ∧
    (∀ m : LearningContext, m.valid → validateLearningContext (serializeLearningContext m) = .ok m) ∧
    (∀ m : User, m.valid → validateUser (serializeUser m) = .ok m) ∧
    (∀ m : Example, validateExample (serializeExample m) = .ok m) ∧
    (∀ m : Analogy, validateAnalogy (serializeAnalogy m) = .ok m) ∧
    (∀ m : StepByStep, validateStepByStep (serializeStepByStep m) = .ok m) ∧
    (∀ m : ConceptExplanation, validateConceptExplanation (serializeConceptExplanation m) = .ok m) ∧
    (∀ m : LineExplanation, validateLineExplanation (serializeLineExplanation m) = .ok m) ∧
    (∀ m : Issue, validateIssue (serializeIssue m) = .ok m) ∧
    (∀ m : CodeExplanation, validateCodeExplanation (serializeCodeExplanation m) = .ok m) ∧
    (∀ m : Fix, validateFix (serializeFix m) = .ok m) ∧
    (∀ m : DebuggingSuggestion, validateDebuggingSuggestion (serializeDebuggingSuggestion m) = .ok m) ∧
    (∀ m : DocumentMetadata, m.valid → validateDocumentMetadata (serializeDocumentMetadata m) = .ok m) ∧
    (∀ m : KnowledgeDocument, m.valid → validateKnowledgeDocument (serializeKnowledgeDocument m) = .ok m) ∧
    (∀ m : UserRegistration, validateUserRegistration (serializeUserRegistration m) = .ok m) ∧
    (∀ m : LoginCredentials, validateLoginCredentials (serializeLoginCredentials m) = .ok m) ∧
    (∀ m : ConversationMessage, m.valid → validateConversationMessage (serializeConversationMessage m) = .ok m) ∧
    (∀ m : SessionContext, m.valid → validateSessionContext (serializeSessionContext m) = .ok m) ∧
    (∀ m : UserContext, m.valid → validateUserContext (serializeUserContext m) = .ok m) ∧
    (∀ m : SearchFilters, m.valid → validateSearchFilters (serializeSearchFilters m) = .ok m) ∧
    (∀ m : SearchResult, m.valid → validateSearchResult (serializeSearchResult m) = .ok m) ∧
    (∀ m : LearningResource, validateLearningResource (serializeLearningResource m) = .ok m) ∧
    (∀ m : Milestone, validateMilestone (serializeMilestone m) = .ok m) ∧
    (∀ m : LearningPath, validateLearningPath (serializeLearningPath m) = .ok m) ∧
    (∀ m : SkillImprovement, m.valid → validateSkillImprovement (serializeSkillImprovement m) = .ok m) ∧
    (∀ m : ProgressMetrics, m.valid → validateProgressMetrics (serializeProgressMetrics m) = .ok m) ∧
    (∀ m : AnalyticsData, m.valid → validateAnalyticsData (serializeAnalyticsData m) = .ok m) ∧
    (∀ m : AuthResponse, m.valid → validateAuthResponse (serializeAuthResponse m) = .ok m) ∧
    (∀ m : ApiResponse, m.valid → validateApiResponse (serializeApiResponse m) = .ok m) ∧
    (∀ m : PaginatedResponse, validatePaginatedResponse (serializePaginatedResponse m) = .ok m) ∧
    (∀ m : ApiError, validateApiError (serializeApiError m) = .ok m) ∧
    (∀ m : ValidationError, m.valid → validateValidationError (serializeValidationError m) = .ok m) ∧
    (∀ m : IngestionResult, validateIngestionResult (serializeIngestionResult m) = .ok m) ∧
    (∀ m : GenerationContext, m.valid → validateGenerationContext (serializeGenerationContext m) = .ok m) ∧
    (∀ m : SkillAssessment, m.valid → validateSkillAssessment (serializeSkillAssessment m) = .ok m) ∧
    (∀ m : PersonalizedResponse, m.valid → validatePersonalizedResponse (serializePersonalizedResponse m) = .ok m) ∧
    (∀ m : WorkflowOptimization, m.valid → validateWorkflowOptimization (serializeWorkflowOptimization m) = .ok m) ∧
    validateSkillLevel (skillLevelInput 0.85) =
      .ok ⟨"recursion", .advanced, 0.85, ⟨2024, 1, 1, 0, 0, 0⟩⟩ ∧
    serializeSkillLevel ⟨"recursion", .advanced, 0.85, ⟨2024, 1, 1, 0, 0, 0⟩⟩ =
      skillLevelInput 0.85 := by
  refine ⟨validateNotificationSettings_serialize, validateUserPreferences_serialize,
    validateSkillLevel_serialize, validateExpertiseLevel_serialize,
    validateUserFeedback_serialize, validateLearningInteraction_serialize,
    validateLearningContext_serialize, validateUser_serialize,
    validateExample_serialize, validateAnalogy_serialize,
    validateStepByStep_serialize, validateConceptExplanation_serialize,
    validateLineExplanation_serialize, validateIssue_serialize,
    validateCodeExplanation_serialize, validateFix_serialize,
    validateDebuggingSuggestion_serialize, validateDocumentMetadata_serialize,
    validateKnowledgeDocument_serialize, validateUserRegistration_serialize,
    validateLoginCredentials_serialize, validateConversationMessage_serialize,
    validateSessionContext_serialize, validateUserContext_serialize,
    validateSearchFilters_serialize, validateSearchResult_serialize,
    validateLearningResource_serialize, validateMilestone_serialize,
    validateLearningPath_serialize, validateSkillImprovement_serialize,
    validateProgressMetrics_serialize, validateAnalyticsData_serialize,
    validateAuthResponse_serialize, validateApiResponse_serialize,
    validatePaginatedResponse_serialize, validateApiError_serialize,
    validateValidationError_serialize, validateIngestionResult_serialize,
    validateGenerationContext_serialize, validateSkillAssessment_serialize,
    validatePersonalizedResponse_serialize, validateWorkflowOptimization_serialize,
    ?_, rfl⟩
  rw [show skillLevelInput 0.85 =
    serializeSkillLevel ⟨"recursion", .advanced, 0.85, ⟨2024, 1, 1, 0, 0, 0⟩⟩ from rfl]
  exact validateSkillLevel_serialize _ ⟨by norm_num, by norm_num, by decide⟩

/-- A concrete well-formed datetime used by the round-trip witness. -/
def sampleDT : DateTime := ⟨2024, 1, 1, 0, 0, 0⟩

def sampleSkillLevel : SkillLevel := ⟨"recursion", .advanced, 1, sampleDT⟩

def sampleUserFeedback : UserFeedback := ⟨3, true, 4, 5, none⟩

def sampleLearningInteraction : LearningInteraction :=
  ⟨"li-1", "u1", .conceptExplanation, "q", "r", [], none, sampleDT, 1⟩

def sampleLearningContext : LearningContext := ⟨[], [], [], none⟩

def sampleUser : User :=
  ⟨"u1", "u@x", "u", sampleDT, sampleDT,
   ⟨.detailed, [], [], ⟨true, true, true, true⟩⟩, sampleLearningContext⟩

def sampleMetadata : DocumentMetadata := ⟨"ada", sampleDT, sampleDT, "1.0", none, none⟩

/-- Witness for C6: the round-trip theorem applied at a concrete instance of
every record type whose conjunct carries a validity hypothesis, with each
hypothesis discharged by `decide`. -/
theorem all_record_types_roundtrip_witness :
    (sampleSkillLevel.valid ∧
      validateSkillLevel (serializeSkillLevel sampleSkillLevel) = .ok sampleSkillLevel) ∧
    (sampleUserFeedback.valid ∧
      validateUserFeedback (serializeUserFeedback sampleUserFeedback) = .ok sampleUserFeedback) ∧
    (sampleLearningInteraction.valid ∧
      validateLearningInteraction (serializeLearningInteraction sampleLearningInteraction) =
        .ok sampleLearningInteraction) ∧
    (sampleLearningContext.valid ∧
      validateLearningContext (serializeLearningContext sampleLearningContext) =
        .ok sampleLearningContext) ∧
    (sampleUser.valid ∧ validateUser (serializeUser sampleUser) = .ok sampleUser) ∧
    (sampleMetadata.valid ∧
      validateDocumentMetadata (serializeDocumentMetadata sampleMetadata) = .ok sampleMetadata) ∧
    (KnowledgeDocument.valid ⟨"d1", "t", "c", .tutorial, [], .beginner, "s", [], sampleMetadata⟩ ∧
      validateKnowledgeDocument (serializeKnowledgeDocument
        ⟨"d1", "t", "c", .tutorial, [], .beginner, "s", [], sampleMetadata⟩) =
        .ok ⟨"d1", "t", "c", .tutorial, [], .beginner, "s", [], sampleMetadata⟩) ∧
    (ConversationMessage.valid ⟨"user", "hi", sampleDT, none⟩ ∧
      validateConversationMessage (serializeConversationMessage ⟨"user", "hi", sampleDT, none⟩) =
        .ok ⟨"user", "hi", sampleDT, none⟩) ∧
    (SessionContext.valid ⟨none, [], []⟩ ∧
      validateSessionContext (serializeSessionContext ⟨none, [], []⟩) = .ok ⟨none, [], []⟩) ∧
    (UserContext.valid ⟨"u1", sampleSkillLevel, ⟨.detailed, [], [], ⟨true, true, true, true⟩⟩, ⟨none, [], []⟩⟩ ∧
      validateUserContext (serializeUserContext
        ⟨"u1", sampleSkillLevel, ⟨.detailed, [], [], ⟨true, true, true, true⟩⟩, ⟨none, [], []⟩⟩) =
        .ok ⟨"u1", sampleSkillLevel, ⟨.detailed, [], [], ⟨true, true, true, true⟩⟩, ⟨none, [], []⟩⟩) ∧
    (SearchFilters.valid ⟨none, none, none, none, none⟩ ∧
      validateSearchFilters (serializeSearchFilters ⟨none, none, none, none, none⟩) =
        .ok ⟨none, none, none, none, none⟩) ∧
    (SearchResult.valid ⟨"d1", "t", "s", 1, sampleMetadata⟩ ∧
      validateSearchResult (serializeSearchResult ⟨"d1", "t", "s", 1, sampleMetadata⟩) =
        .ok ⟨"d1", "t", "s", 1, sampleMetadata⟩) ∧
    (SkillImprovement.valid ⟨"recursion", 0, 1, sampleDT⟩ ∧
      validateSkillImprovement (serializeSkillImprovement ⟨"recursion", 0, 1, sampleDT⟩) =
        .ok ⟨"recursion", 0, 1, sampleDT⟩) ∧
    (ProgressMetrics.valid ⟨[], 0, 0, 0, 0, []⟩ ∧
      validateProgressMetrics (serializeProgressMetrics ⟨[], 0, 0, 0, 0, []⟩) =
        .ok ⟨[], 0, 0, 0, 0, []⟩) ∧
    (AnalyticsData.valid ⟨"u1", "s1", "ev", [], sampleDT⟩ ∧
      validateAnalyticsData (serializeAnalyticsData ⟨"u1", "s1", "ev", [], sampleDT⟩) =
        .ok ⟨"u1", "s1", "ev", [], sampleDT⟩) ∧
    (AuthResponse.valid ⟨sampleUser, "a", "r", 3600⟩ ∧
      validateAuthResponse (serializeAuthResponse ⟨sampleUser, "a", "r", 3600⟩) =
        .ok ⟨sampleUser, "a", "r", 3600⟩) ∧
    (ApiResponse.valid ⟨true, none, none, none⟩ ∧
      validateApiResponse (serializeApiResponse ⟨true, none, none, none⟩) =
        .ok ⟨true, none, none, none⟩) ∧
    (ValidationError.valid ⟨"f", "m", none⟩ ∧
      validateValidationError (serializeValidationError ⟨"f", "m", none⟩) =
        .ok ⟨"f", "m", none⟩) ∧
    (GenerationContext.valid ⟨"q", [], "c", 1⟩ ∧
      validateGenerationContext (serializeGenerationContext ⟨"q", [], "c", 1⟩) =
        .ok ⟨"q", [], "c", 1⟩) ∧
    (SkillAssessment.valid ⟨"u1", [], 1, sampleDT, "quiz"⟩ ∧
      validateSkillAssessment (serializeSkillAssessment ⟨"u1", [], 1, sampleDT, "quiz"⟩) =
        .ok ⟨"u1", [], 1, sampleDT, "quiz"⟩) ∧
    (PersonalizedResponse.valid ⟨"o", "p", [], 1⟩ ∧
      validatePersonalizedResponse (serializePersonalizedResponse ⟨"o", "p", [], 1⟩) =
        .ok ⟨"o", "p", [], 1⟩) ∧
    (WorkflowOptimization.valid ⟨"c", "o", [], 0, 1⟩ ∧
      validateWorkflowOptimization (serializeWorkflowOptimization ⟨"c", "o", [], 0, 1⟩) =
        .ok ⟨"c", "o", [], 0, 1⟩) := by
  obtain ⟨-, -, h3, -, h5, h6, h7, h8, -, -, -, -, -, -, -, -, -, h18, h19, -, -,
    h22, h23, h24, h25, h26, -, -, -, h30, h31, h32, h33, h34, -, -, h37, -, h39,
    h40, h41, h42, -, -⟩ := all_record_types_roundtrip
  exact ⟨⟨by decide, h3 _ (by decide)⟩, ⟨by decide, h5 _ (by decide)⟩,
    ⟨by decide, h6 _ (by decide)⟩, ⟨by decide, h7 _ (by decide)⟩,
    ⟨by decide, h8 _ (by decide)⟩, ⟨by decide, h18 _ (by decide)⟩,
    ⟨by decide, h19 _ (by decide)⟩, ⟨by decide, h22 _ (by decide)⟩,
    ⟨by decide, h23 _ (by decide)⟩, ⟨by decide, h24 _ (by decide)⟩,
    ⟨by decide, h25 _ (by decide)⟩, ⟨by decide, h26 _ (by decide)⟩,
    ⟨by decide, h30 _ (by decide)⟩, ⟨by decide, h31 _ (by decide)⟩,
    ⟨by decide, h32 _ (by decide)⟩, ⟨by decide, h33 _ (by decide)⟩,
    ⟨by decide, h34 _ (by decide)⟩, ⟨by decide, h37 _ (by decide)⟩,
    ⟨by decide, h39 _ (by decide)⟩, ⟨by decide, h40 _ (by decide)⟩,
    ⟨by decide, h41 _ (by decide)⟩, ⟨by decide, h42 _ (by decide)⟩⟩

/-! ### C7: one violation, on `rating` -/

/-- The `UserFeedback` wire input of the concrete scenario: rating 6,
helpful true, clarity 3, accuracy 4. -/
def userFeedbackScenarioInput : Value :=
  .obj [("rating", .num 6), ("helpful", .bool true), ("clarity_rating", .num 3),
        ("accuracy_rating", .num 4)]

/-- C7: validating the scenario input (rating 6, all other fields valid)
fails, and since every field is checked in one pass, the structured failure
holds exactly one violation, on the field `rating` with the received value
6 and the violated upper-bound constraint. -/
theorem user_feedback_single_violation_on_rating :
    validateUserFeedback userFeedbackScenarioInput =
      .error [⟨"rating", "Input should be less than or equal to the maximum",
               some (.num 6)⟩] := rfl

/-! ### C8: no cross-field invariant in `PaginatedResponse` -/

/-- Fields of a `PaginatedResponse` input with empty data and given
page/limit. -/
def paginatedFields (page limit : ℤ) : List (String × Value) :=
  [("data", .arr []), ("total", .num 0), ("page", .num (page : ℚ)),
   ("limit", .num (limit : ℚ)), ("has_next", .bool false), ("has_prev", .bool false)]

/-- C8: a `PaginatedResponse` with total 0, empty data and both paging
flags false validates for every integer `page` and `limit`: no cross-field
consistency constraint is enforced. -/
theorem paginated_response_no_cross_field_invariant (page limit : ℤ) :
    validatePaginatedResponse (.obj (paginatedFields page limit)) =
      .ok ⟨[], 0, page, limit, false, false⟩ := rfl

/-! ### C9: `relevance_threshold` default and no range -/

/-- A `GenerationContext` input omitting `relevance_threshold`. -/
def generationContextBaseFields : List (String × Value) :=
  [("query", .str "what is recursion"), ("retrieved_documents", .arr []),
   ("context_text", .str "ctx")]

/-- A `GenerationContext` input carrying an explicit threshold. -/
def generationContextFields (t : ℚ) : List (String × Value) :=
  [("query", .str "what is recursion"), ("retrieved_documents", .arr []),
   ("context_text", .str "ctx"), ("relevance_threshold", .num t)]

/-- C9: `GenerationContext.relevance_threshold` defaults to 0.7 when the
field is omitted, and carries no range constraint — every rational
threshold (including values below 0 or above 1) passes validation and is
stored unchanged. -/
theorem relevance_threshold_default_and_unconstrained :
    validateGenerationContext (.obj generationContextBaseFields) =
      .ok ⟨"what is recursion", [], "ctx", 0.7⟩ ∧
    ∀ t : ℚ, validateGenerationContext (.obj (generationContextFields t)) =
      .ok ⟨"what is recursion", [], "ctx", t⟩ :=
  ⟨rfl, fun _ => rfl⟩

/-! ### C10: unconstrained strings -/

/-- Fields of a `ConversationMessage` input with a given role string. -/
def conversationMessageFields (s : String) : List (String × Value) :=
  [("role", .str s), ("content", .str "hello"),
   ("timestamp", .str "2024-01-01T00:00:00Z")]

/-- Fields of a `LearningResource` input with a given type string. -/
def learningResourceTypeFields (s : String) : List (String × Value) :=
  [("id", .str "lr-1"), ("title", .str "Recursion drills"), ("type", .str s),
   ("difficulty_level", .str "beginner"), ("estimated_time", .num 30)]

/-- C10: `ConversationMessage.role` and `LearningResource.type` are plain
unconstrained strings — every string (not only the values suggested in the
source comments) passes validation and is stored unchanged. -/
theorem role_and_type_strings_unconstrained (s : String) :
    validateConversationMessage (.obj (conversationMessageFields s)) =
      .ok ⟨s, "hello", ⟨2024, 1, 1, 0, 0, 0⟩, none⟩ ∧
    validateLearningResource (.obj (learningResourceTypeFields s)) =
      .ok ⟨"lr-1", "Recursion drills", s, none, none, .beginner, 30⟩ :=
  ⟨rfl, rfl⟩

end SmartLearn
